import Mathlib

/-!
# gptokeyb2: startup and control loop of `main` (src/main.c)

A shallow embedding of `main`.  Everything `main` calls that lives in another
translation unit of the program (`state_init`, `config_load`, `find_button`,
`handleInputEvent`, `state_update`, ...) is a field of `Extern`; everything the
operating system or the SDL library answers (environment variables, `access`,
`SDL_Init`, `open`, `ioctl`, the pending controller events) is a field of
`World`.  `main` threads the state of the other modules through these calls and
records every call in a trace, so that ordering properties can be stated.

C strings are lists of characters without their terminating NUL; character
buffers are lists of characters of the buffer's size.
-/

namespace Gptokeyb2

/-! ## C strings and buffers -/

/-- A C string: the characters before the terminating NUL. -/
abbrev CStr := List Char

/-- The NUL character. -/
def NUL : Char := Char.ofNat 0

/-- The C string held by a buffer: the characters before the first NUL. -/
def cstr (buf : List Char) : CStr := buf.takeWhile (fun c => c != NUL)

/-- The `n` bytes `strncpy` writes: the characters of `src` up to its end (or `n`),
then NUL padding up to `n` bytes.  No NUL is written when `src` has `n` or more
characters. -/
def strncpyBytes : Nat → List Char → List Char
  | 0, _ => []
  | n + 1, [] => NUL :: strncpyBytes n []
  | n + 1, c :: cs => if c = NUL then NUL :: strncpyBytes n [] else c :: strncpyBytes n cs

/-- The buffer `dest` after `strncpy(dest, src, n)`, for `n` at most the buffer size. -/
def strncpy (dest : List Char) (src : CStr) (n : Nat) : List Char :=
  strncpyBytes n src ++ dest.drop n

/-- A zero-filled buffer, as `char buf[n] = ""` declares. -/
def zeroBuf (n : Nat) : List Char := List.replicate n NUL

/-- The constant `MAX_PROCESS_NAME` (main.c line 40). -/
def MAX_PROCESS_NAME : Nat := 64

/-- The constant `DEFAULT_CONFIG` (main.c line 41). -/
def DEFAULT_CONFIG : CStr :=
  ['~', '/', '.', 'c', 'o', 'n', 'f', 'i', 'g', '/', 'g', 'p', 't', 'o', 'k', 'e', 'y', 'b',
   '2', '.', 'i', 'n', 'i']

/-- The option string handed to `getopt` (main.c line 99). -/
def OPTSTRING : List Char := ['h', 'd', 'x', 'p', ':', 'c', ':', 'X', 'P', 'H', ':']

/-- The C library's `isprint` in the C locale. -/
def isprint (c : Char) : Bool := decide (32 ≤ c.toNat) && decide (c.toNat ≤ 126)

/-! ## The C library's getopt -/

/-- One return of `getopt`: an option without argument, an option with its
`optarg`, or the error return `?` with `optopt` set to the offending character. -/
inductive GetoptResult
  | flag (c : Char)
  | witharg (c : Char) (optarg : CStr)
  | error (optopt : Char)
  deriving DecidableEq, Repr

/-- The value `getopt` returns. -/
def GetoptResult.opt : GetoptResult → Char
  | .flag c => c
  | .witharg c _ => c
  | .error _ => '?'

/-- The `optarg` main reads (empty when the option has none). -/
def GetoptResult.optarg : GetoptResult → CStr
  | .flag _ => []
  | .witharg _ a => a
  | .error _ => []

/-- The `optopt` main reads in the `?` case. -/
def GetoptResult.optopt : GetoptResult → Char
  | .flag c => c
  | .witharg c _ => c
  | .error c => c

/-- Lookup of an option character in the option string (`strchr`): `none` when the
character is not an option, `some true` when it takes an argument. -/
def optSpec (optstring : List Char) (c : Char) : Option Bool :=
  if c = ':' ∨ c = ';' then none
  else
    match optstring.dropWhile (fun d => d != c) with
    | [] => none
    | _ :: rest => some (rest.head? == some ':')

/-- Scan of the option characters of one argv element (after its leading dash).
`next` is the argv element that follows, taken as `optarg` when an option that
needs an argument ends the element; the boolean tells whether it was taken. -/
def scanCluster (optstring : List Char) (next : Option CStr) :
    List Char → List GetoptResult × Bool
  | [] => ([], false)
  | c :: rest =>
    match optSpec optstring c with
    | none => ((GetoptResult.error c) :: (scanCluster optstring next rest).1,
               (scanCluster optstring next rest).2)
    | some false => ((GetoptResult.flag c) :: (scanCluster optstring next rest).1,
                     (scanCluster optstring next rest).2)
    | some true =>
      if rest ≠ [] then ([GetoptResult.witharg c rest], false)
      else
        match next with
        | some a => ([GetoptResult.witharg c a], true)
        | none => ([GetoptResult.error c], false)

/-- All returns of the `getopt` loop over the arguments after `argv[0]`, and the
positional arguments left at `argv[optind..]` when it returns -1.  With `permute`
(the GNU default) non-options are skipped and moved behind the options; without
it scanning stops at the first non-option.  The first boolean argument is set
when the head element was already consumed as the previous option's `optarg`. -/
def scanArgs (permute : Bool) (optstring : List Char) :
    Bool → List CStr → List GetoptResult × List CStr
  | _, [] => ([], [])
  | true, _ :: rest => scanArgs permute optstring false rest
  | false, a :: rest =>
    if a = ['-', '-'] then ([], rest)
    else
      match a with
      | '-' :: c :: cs =>
        ((scanCluster optstring rest.head? (c :: cs)).1 ++
            (scanArgs permute optstring (scanCluster optstring rest.head? (c :: cs)).2 rest).1,
          (scanArgs permute optstring (scanCluster optstring rest.head? (c :: cs)).2 rest).2)
      | _ =>
        if permute then
          ((scanArgs permute optstring false rest).1,
            a :: (scanArgs permute optstring false rest).2)
        else ([], a :: rest)

/-- The getopt returns for an argument vector. -/
def getoptResults (permute : Bool) (argv : List CStr) : List GetoptResult :=
  (scanArgs permute OPTSTRING false argv.tail).1

/-- The positional arguments `argv[optind..]` for an argument vector. -/
def positionals (permute : Bool) (argv : List CStr) : List CStr :=
  (scanArgs permute OPTSTRING false argv.tail).2

/-! ## The program state and the collaborators of main -/

/-- What main prints (the format strings of its `printf` and `fprintf` calls, with
their arguments). `usage` stands for the block of lines 174 to 187. -/
inductive Msg
  | set_hotkey_as (name : CStr)
  | using_pc_quit_mode
  | using_kill_mode
  | using_pkill_mode
  | unable_to_set_hotkey (name : CStr)
  | using_control (name : CStr)
  | option_requires_argument (c : Char)
  | unknown_option (c : Char)
  | unknown_option_character (c : Char)
  | blank_line
  | usage (argv0 : CStr)
  | extra_option (arg : CStr)
  | loading (path : CStr)
  | sdl_init_failed
  | unable_to_open_uinput
  | running_fake_xbox360
  | running_fake_keyboard
  | unable_to_create_uinput
  deriving DecidableEq, Repr

/-- A call main makes, with the value it got back where main looks at it.
`ε` is the type of controller events, `π` of configuration profiles. -/
inductive Call (ε π : Type)
  | state_init
  | config_init
  | find_button (name : CStr)
  | set_hotkey (gbtn : Int)
  | printf (msg : Msg)
  | fprintf_stderr (msg : Msg)
  | config_load (path : CStr) (flag : Bool) (ret : Int)
  | config_quit
  | config_find (name : CStr)
  | store_config_stack0 (p : Option π)
  | config_finalise
  | config_dump
  | SDL_Init (ret : Int)
  | open_uinput (fd : Int)
  | setupFakeXbox360Device
  | setupFakeKeyboardMouseDevice
  | write_uidev
  | ioctl_UI_DEV_CREATE (ret : Int)
  | SDL_GameControllerAddMappingsFromFile (path : CStr)
  | SDL_PollEvent (e : Option ε)
  | handleInputEvent (e : ε)
  | state_update
  | SDL_Delay (ms : Nat)
  | SDL_Quit
  | sleep (s : Nat)
  | ioctl_UI_DEV_DESTROY
  | close
  | exit (code : Int)
  deriving DecidableEq, Repr

/-- The entry of the button table `find_button` points to; main reads its `gbtn`. -/
structure button_match where
  gbtn : Int
  deriving DecidableEq, Repr

/-- The global variables of main.c (lines 43 to 54). A null profile pointer is `none`. -/
structure Globals (π : Type) where
  uinp_fd : Int
  xbox360_mode : Bool
  config_mode : Bool
  want_pc_quit : Bool
  want_kill : Bool
  want_sudo : Bool
  kill_process_name : List Char
  default_config : Option π

/-- The functions and constants of the other modules of the program that main
uses, all declared in gptokeyb2.h and taken here as parameters; `σ` is the state
of those modules (`current_state`, the profile registry, `config_stack`, ...).
`MAX_CONTROL_NAME` is the size of the buffer `default_control`, at least 1 in C.
`config_load` returns non-zero on failure.  `handleInputEvent` and `state_update`
may read the globals of main.c.  `set_config_stack0` is the store
`config_stack[0] = p`. -/
structure Extern (σ ε π : Type) where
  MAX_CONTROL_NAME : Nat
  state_init : σ → σ
  config_init : σ → σ
  find_button : σ → CStr → Option button_match
  set_hotkey : σ → Int → σ
  config_load : σ → CStr → Bool → Int × σ
  config_quit : σ → σ
  config_find : σ → CStr → Option π
  root_config : σ → Option π
  set_config_stack0 : σ → Option π → σ
  config_finalise : σ → σ
  config_dump : σ → σ
  setupFakeXbox360Device : σ → σ
  setupFakeKeyboardMouseDevice : σ → σ
  handleInputEvent : Globals π → σ → ε → σ
  state_update : Globals π → σ → σ
  running : σ → Bool

/-- What the operating system and the SDL library answer during one run: the
environment variables, whether getopt permutes, `access(DEFAULT_CONFIG)`, the
returns of `SDL_Init`, `open` and `ioctl(UI_DEV_CREATE)`, and for each iteration of
the control loop the controller events pending in it. -/
structure World (ε : Type) where
  HOTKEY : Option CStr
  PCKILLMODE : Option CStr
  NO_PKILL : Option CStr
  SDL_GAMECONTROLLERCONFIG_FILE : Option CStr
  permute : Bool
  default_config_exists : Bool
  SDL_Init : Int
  open_uinput : Int
  ioctl_UI_DEV_CREATE : Int
  events : List (List ε)

/-- The state of a run of main: its globals, its locals `do_dump_config` and
`default_control`, the state of the other modules and the calls made so far. -/
structure Machine (σ ε π : Type) where
  g : Globals π
  do_dump_config : Bool
  default_control : List Char
  ext : σ
  trace : List (Call ε π)

/-- How a run ends: `return r` from main, `exit(code)`, or still in the control
loop when the scripted events ran out. -/
inductive Outcome
  | returned (r : Int)
  | exited (code : Int)
  | running
  deriving DecidableEq, Repr

/-- The exit status of the process (the low eight bits), when it has ended. -/
def Outcome.exitStatus : Outcome → Option Int
  | .returned r => some (r % 256)
  | .exited c => some (c % 256)
  | .running => none

/-- A finished (or cut off) run. -/
structure Result (σ ε π : Type) where
  m : Machine σ ε π
  outcome : Outcome

section Program

variable {σ ε π : Type}

/-- Record a call. -/
def Machine.emit (m : Machine σ ε π) (c : Call ε π) : Machine σ ε π :=
  { m with trace := m.trace ++ [c] }

/-- Replace the state of the other modules. -/
def Machine.withExt (m : Machine σ ε π) (s : σ) : Machine σ ε π :=
  { m with ext := s }

/-- The state at the opening brace of main: initialised globals (lines 43 to 54),
`do_dump_config = false`; `default_control` is zero-filled at line 97. -/
def initMachine (X : Extern σ ε π) (s0 : σ) : Machine σ ε π :=
  { g := { uinp_fd := 0, xbox360_mode := false, config_mode := false, want_pc_quit := false,
           want_kill := false, want_sudo := false,
           kill_process_name := zeroBuf 64, default_config := none },
    do_dump_config := false,
    default_control := zeroBuf X.MAX_CONTROL_NAME,
    ext := s0,
    trace := [] }

/-- Lines 66 to 77: the hotkey named by the environment variable HOTKEY. -/
def hotkeyEnv (X : Extern σ ε π) (W : World ε) (m : Machine σ ε π) : Machine σ ε π :=
  match W.HOTKEY with
  | none => m
  | some env_hotkey =>
    match X.find_button m.ext env_hotkey with
    | some button =>
      (((m.emit (Call.find_button env_hotkey)).emit
          (Call.printf (Msg.set_hotkey_as env_hotkey))).emit
        (Call.set_hotkey button.gbtn)).withExt (X.set_hotkey m.ext button.gbtn)
    | none => m.emit (Call.find_button env_hotkey)

/-- Lines 79 to 88: the environment variable PCKILLMODE. -/
def pckillEnv (W : World ε) (m : Machine σ ε π) : Machine σ ε π :=
  match W.PCKILLMODE with
  | none => m
  | some env_pckill_mode =>
    if env_pckill_mode = ['Y'] then
      { m.emit (Call.printf Msg.using_pc_quit_mode) with
        g := { m.g with want_pc_quit := true } }
    else m

/-- Lines 90 to 94: the environment variable NO_PKILL. -/
def noPkillEnv (W : World ε) (m : Machine σ ε π) : Machine σ ε π :=
  match W.NO_PKILL with
  | none => m
  | some _ => { m with g := { m.g with want_kill := true } }

/-- Lines 63 to 94: `state_init`, `config_init` and the environment variables
HOTKEY, PCKILLMODE and NO_PKILL. -/
def envStage (X : Extern σ ε π) (W : World ε) (m : Machine σ ε π) : Machine σ ε π :=
  noPkillEnv W (pckillEnv W (hotkeyEnv X W
    ((((m.emit Call.state_init).withExt (X.state_init m.ext)).emit Call.config_init).withExt
      (X.config_init (X.state_init m.ext)))))

/-- Case X (lines 103 to 109). -/
def caseX (m : Machine σ ε π) : Machine σ ε π :=
  if !m.g.want_kill then
    { m.emit (Call.printf Msg.using_kill_mode) with g := { m.g with want_kill := true } }
  else m

/-- Case Z (lines 111 to 117). -/
def caseZ (m : Machine σ ε π) : Machine σ ε π :=
  if m.g.want_kill then
    { m.emit (Call.printf Msg.using_pkill_mode) with g := { m.g with want_kill := false } }
  else m

/-- Case P (lines 119 to 125). -/
def caseP (m : Machine σ ε π) : Machine σ ε π :=
  if !m.g.want_pc_quit then
    { m.emit (Call.printf Msg.using_pc_quit_mode) with g := { m.g with want_pc_quit := true } }
  else m

/-- Case H (lines 127 to 141). -/
def caseH (X : Extern σ ε π) (m : Machine σ ε π) (optarg : CStr) : Machine σ ε π :=
  match X.find_button m.ext optarg with
  | some button =>
    (((m.emit (Call.find_button optarg)).emit (Call.printf (Msg.set_hotkey_as optarg))).emit
      (Call.set_hotkey button.gbtn)).withExt (X.set_hotkey m.ext button.gbtn)
  | none =>
    (m.emit (Call.find_button optarg)).emit (Call.printf (Msg.unable_to_set_hotkey optarg))

/-- Case d (lines 143 to 145). -/
def cased (m : Machine σ ε π) : Machine σ ε π :=
  { m with do_dump_config := true }

/-- Case c (lines 147 to 151): the return value of `config_load` is not looked at. -/
def casec (X : Extern σ ε π) (m : Machine σ ε π) (optarg : CStr) : Machine σ ε π :=
  { m with
    g := { m.g with config_mode := true, xbox360_mode := false },
    ext := (X.config_load m.ext optarg false).2,
    trace := m.trace ++ [Call.config_load optarg false (X.config_load m.ext optarg false).1] }

/-- Case x (lines 153 to 156). -/
def casex (m : Machine σ ε π) : Machine σ ε π :=
  { m with g := { m.g with config_mode := false, xbox360_mode := true } }

/-- Case p (lines 158 to 161). -/
def casep (X : Extern σ ε π) (m : Machine σ ε π) (optarg : CStr) : Machine σ ε π :=
  { m with
    default_control := strncpy m.default_control optarg (X.MAX_CONTROL_NAME - 1),
    trace := m.trace ++ [Call.printf (Msg.using_control
      (cstr (strncpy m.default_control optarg (X.MAX_CONTROL_NAME - 1))))] }

/-- The usage text of case h (lines 173 to 188). -/
def caseh (argv0 : CStr) (m : Machine σ ε π) : Machine σ ε π :=
  m.emit (Call.fprintf_stderr (Msg.usage argv0))

/-- Case `?` (lines 163 to 171), which falls through into case h. -/
def caseQuestion (argv0 : CStr) (m : Machine σ ε π) (optopt : Char) : Machine σ ε π :=
  caseh argv0
    ((m.emit (Call.fprintf_stderr
        (if optopt = 'c' then Msg.option_requires_argument optopt
         else if isprint optopt then Msg.unknown_option optopt
         else Msg.unknown_option_character optopt))).emit
      (Call.fprintf_stderr Msg.blank_line))

/-- The default case (lines 190 to 193): `config_quit(); exit(EXIT_FAILURE);`. -/
def caseDefault (X : Extern σ ε π) (m : Machine σ ε π) : Machine σ ε π :=
  ((m.emit Call.config_quit).withExt (X.config_quit m.ext)).emit (Call.exit 1)

/-- The body of the `switch (opt)` for one getopt return (lines 101 to 194). The
second component is the code of `exit` when the default case is taken. -/
def optionCase (X : Extern σ ε π) (argv0 : CStr) (m : Machine σ ε π) (r : GetoptResult) :
    Machine σ ε π × Option Int :=
  if r.opt = 'X' then (caseX m, none)
  else if r.opt = 'Z' then (caseZ m, none)
  else if r.opt = 'P' then (caseP m, none)
  else if r.opt = 'H' then (caseH X m r.optarg, none)
  else if r.opt = 'd' then (cased m, none)
  else if r.opt = 'c' then (casec X m r.optarg, none)
  else if r.opt = 'x' then (casex m, none)
  else if r.opt = 'p' then (casep X m r.optarg, none)
  else if r.opt = '?' then (caseQuestion argv0 m r.optopt, none)
  else if r.opt = 'h' then (caseh argv0 m, none)
  else (caseDefault X m, some 1)

/-- The `while ((opt = getopt(...)) != -1)` loop (lines 99 to 195) over the getopt
returns; it stops at the first `exit`. -/
def optionLoop (X : Extern σ ε π) (argv0 : CStr) :
    Machine σ ε π → List GetoptResult → Machine σ ε π × Option Int
  | m, [] => (m, none)
  | m, r :: rs =>
    match optionCase X argv0 m r with
    | (m1, some code) => (m1, some code)
    | (m1, none) => optionLoop X argv0 m1 rs

/-- The loop over the positional arguments (lines 197 to 207). -/
def positionalStage (m : Machine σ ε π) : List CStr → Machine σ ε π
  | [] => m
  | a :: rest =>
    rest.foldl (fun acc x => acc.emit (Call.printf (Msg.extra_option x)))
      { m with g := { m.g with
          kill_process_name := strncpy m.g.kill_process_name a MAX_PROCESS_NAME } }

/-- The `if (config_mode)` block (lines 209 to 233). The second component is the
value main returns when loading the default configuration fails. -/
def configStage (X : Extern σ ε π) (W : World ε) (m : Machine σ ε π) :
    Machine σ ε π × Option Int :=
  if m.g.config_mode then
    let loaded : Machine σ ε π × Bool :=
      if W.default_config_exists then
        let m1 := m.emit (Call.printf (Msg.loading DEFAULT_CONFIG))
        let res := X.config_load m1.ext DEFAULT_CONFIG true
        ((m1.emit (Call.config_load DEFAULT_CONFIG true res.1)).withExt res.2,
          decide (res.1 ≠ 0))
      else (m, false)
    if loaded.2 then
      ((loaded.1.emit Call.config_quit).withExt (X.config_quit loaded.1.ext), some 1)
    else
      let m2 := loaded.1
      let m3 :=
        if cstr m2.default_control ≠ [] then
          { m2.emit (Call.config_find (cstr m2.default_control)) with
            g := { m2.g with
              default_config := X.config_find m2.ext (cstr m2.default_control) } }
        else m2
      let m4 :=
        if m3.g.default_config.isNone then
          { m3 with g := { m3.g with default_config := X.root_config m3.ext } }
        else m3
      ((m4.emit (Call.store_config_stack0 m4.g.default_config)).withExt
          (X.set_config_stack0 m4.ext m4.g.default_config), none)
  else (m, none)

/-- Lines 235 to 238: `config_finalise` and the optional `config_dump`. -/
def finaliseStage (X : Extern σ ε π) (m : Machine σ ε π) : Machine σ ε π :=
  let m1 := (m.emit Call.config_finalise).withExt (X.config_finalise m.ext)
  if m1.do_dump_config then (m1.emit Call.config_dump).withExt (X.config_dump m1.ext) else m1

/-- Lines 247 to 282: creation of the uinput device, only in config mode or
xbox360 mode. The second component is the value main returns on failure. -/
def deviceStage (X : Extern σ ε π) (W : World ε) (m : Machine σ ε π) :
    Machine σ ε π × Option Int :=
  if m.g.config_mode || m.g.xbox360_mode then
    let m1 := { m.emit (Call.open_uinput W.open_uinput) with
                g := { m.g with uinp_fd := W.open_uinput } }
    if m1.g.uinp_fd < 0 then
      (m1.emit (Call.printf Msg.unable_to_open_uinput), some (-1))
    else
      let m2 :=
        if m1.g.xbox360_mode then
          ((m1.emit (Call.printf Msg.running_fake_xbox360)).emit
            Call.setupFakeXbox360Device).withExt (X.setupFakeXbox360Device m1.ext)
        else
          ((m1.emit (Call.printf Msg.running_fake_keyboard)).emit
            Call.setupFakeKeyboardMouseDevice).withExt (X.setupFakeKeyboardMouseDevice m1.ext)
      let m3 := (m2.emit Call.write_uidev).emit (Call.ioctl_UI_DEV_CREATE W.ioctl_UI_DEV_CREATE)
      if W.ioctl_UI_DEV_CREATE ≠ 0 then
        (m3.emit (Call.printf Msg.unable_to_create_uinput), some (-1))
      else (m3, none)
  else (m, none)

/-- Lines 284 to 288: the optional controller database file. -/
def dbStage (W : World ε) (m : Machine σ ε π) : Machine σ ε π :=
  match W.SDL_GAMECONTROLLERCONFIG_FILE with
  | some db_file => m.emit (Call.SDL_GameControllerAddMappingsFromFile db_file)
  | none => m

/-- The inner loop `while (current_state.running && SDL_PollEvent(&event))
handleInputEvent(&event);` (lines 295 to 298) over the events pending in this
iteration: the calls it makes and the state it leaves.  `SDL_PollEvent` is only
called while `running` holds; on an empty queue it returns 0. -/
def pollLoop (X : Extern σ ε π) (g : Globals π) : σ → List ε → List (Call ε π) × σ
  | s, [] => if X.running s then ([Call.SDL_PollEvent none], s) else ([], s)
  | s, e :: q =>
    if X.running s then
      (Call.SDL_PollEvent (some e) :: Call.handleInputEvent e ::
          (pollLoop X g (X.handleInputEvent g s e) q).1,
        (pollLoop X g (X.handleInputEvent g s e) q).2)
    else ([], s)

/-- One iteration of the body of the control loop (lines 294 to 303): the inner
poll loop, `state_update()`, `SDL_Delay(16)`. -/
def loopIteration (X : Extern σ ε π) (g : Globals π) (s : σ) (q : List ε) :
    List (Call ε π) × σ :=
  ((pollLoop X g s q).1 ++ [Call.state_update, Call.SDL_Delay 16],
    X.state_update g (pollLoop X g s q).2)

/-- The control loop `while (current_state.running)` (lines 292 to 304), one queue
of pending events per iteration: the calls made, the state left, and whether the
loop was left (false: the scripted queues ran out while still running). -/
def controlLoop (X : Extern σ ε π) (g : Globals π) :
    σ → List (List ε) → List (Call ε π) × σ × Bool
  | s, [] => ([], s, !X.running s)
  | s, q :: qs =>
    if X.running s then
      ((loopIteration X g s q).1 ++ (controlLoop X g (loopIteration X g s q).2 qs).1,
        (controlLoop X g (loopIteration X g s q).2 qs).2)
    else ([], s, true)

/-- The teardown after the loop (lines 306 to 316). -/
def teardown : List (Call ε π) :=
  [Call.SDL_Quit, Call.sleep 1, Call.ioctl_UI_DEV_DESTROY, Call.close]

/-- The state after option parsing (line 195) and whether `exit` was called. -/
def parsed (X : Extern σ ε π) (W : World ε) (s0 : σ) (argv : List CStr) :
    Machine σ ε π × Option Int :=
  optionLoop X (argv.headD []) (envStage X W (initMachine X s0)) (getoptResults W.permute argv)

/-- Lines 284 to 319: the controller database, the control loop, the teardown and
`return 0`. -/
def loopStage (X : Extern σ ε π) (W : World ε) (m : Machine σ ε π) : Result σ ε π :=
  if (controlLoop X (dbStage W m).g (dbStage W m).ext W.events).2.2 then
    { m := { dbStage W m with
             ext := (controlLoop X (dbStage W m).g (dbStage W m).ext W.events).2.1,
             trace := (dbStage W m).trace ++
               (controlLoop X (dbStage W m).g (dbStage W m).ext W.events).1 ++ teardown },
      outcome := Outcome.returned 0 }
  else
    { m := { dbStage W m with
             ext := (controlLoop X (dbStage W m).g (dbStage W m).ext W.events).2.1,
             trace := (dbStage W m).trace ++
               (controlLoop X (dbStage W m).g (dbStage W m).ext W.events).1 },
      outcome := Outcome.running }

/-- Lines 240 to 319: `SDL_Init`, the device block and what follows. -/
def sdlStage (X : Extern σ ε π) (W : World ε) (m : Machine σ ε π) : Result σ ε π :=
  if W.SDL_Init ≠ 0 then
    { m := (m.emit (Call.SDL_Init W.SDL_Init)).emit (Call.printf Msg.sdl_init_failed),
      outcome := Outcome.returned (-1) }
  else
    match deviceStage X W (m.emit (Call.SDL_Init W.SDL_Init)) with
    | (m3, some r) => { m := m3, outcome := Outcome.returned r }
    | (m3, none) => loopStage X W m3

/-- The function `main` (lines 59 to 319). -/
def main (X : Extern σ ε π) (W : World ε) (s0 : σ) (argv : List CStr) : Result σ ε π :=
  match parsed X W s0 argv with
  | (m, some code) => { m := m, outcome := Outcome.exited code }
  | (m, none) =>
    match configStage X W (positionalStage m (positionals W.permute argv)) with
    | (m1, some r) => { m := m1, outcome := Outcome.returned r }
    | (m1, none) => sdlStage X W (finaliseStage X m1)

/-- The calls of the inner loop for events that are all polled and handled: for
each event in order, `SDL_PollEvent` returning it, then `handleInputEvent` on it. -/
def eventCalls (q : List ε) : List (Call ε π) :=
  q.flatMap (fun e => [Call.SDL_PollEvent (some e), Call.handleInputEvent e])

/-- The state of the other modules after `handleInputEvent` ran on each event of
`q` in order. -/
def handleAll (X : Extern σ ε π) (g : Globals π) (s : σ) (q : List ε) : σ :=
  q.foldl (X.handleInputEvent g) s

/-- The calls of the control loop proper: an event handed to `handleInputEvent`, or
a tick `state_update`. -/
def isLoopCall : Call ε π → Bool
  | Call.handleInputEvent _ => true
  | Call.state_update => true
  | _ => false

/-- The calls main makes while it reads the environment and the command line
(lines 63 to 207). -/
def parseCall : Call ε π → Bool
  | Call.state_init => true
  | Call.config_init => true
  | Call.find_button _ => true
  | Call.set_hotkey _ => true
  | Call.printf _ => true
  | Call.fprintf_stderr _ => true
  | Call.config_load _ _ _ => true
  | Call.config_quit => true
  | Call.exit _ => true
  | _ => false

/-- The calls main makes between the command line and the device block (lines 209
to 245), besides printing. -/
def midCall : Call ε π → Bool
  | Call.printf _ => true
  | Call.config_load _ _ _ => true
  | Call.config_quit => true
  | Call.config_find _ => true
  | Call.store_config_stack0 _ => true
  | Call.config_finalise => true
  | Call.config_dump => true
  | Call.SDL_Init _ => true
  | _ => false

/-- The calls main makes from line 284 on: the controller database, the control
loop and the teardown. -/
def runCall : Call ε π → Bool
  | Call.SDL_GameControllerAddMappingsFromFile _ => true
  | Call.SDL_PollEvent _ => true
  | Call.handleInputEvent _ => true
  | Call.state_update => true
  | Call.SDL_Delay _ => true
  | Call.SDL_Quit => true
  | Call.sleep _ => true
  | Call.ioctl_UI_DEV_DESTROY => true
  | Call.close => true
  | _ => false

/-- The calls of the device block (lines 251 to 278) when `open` succeeds: `open`,
the mode message, the set-up of the device kind, the `write` of `uidev` and
`ioctl(UI_DEV_CREATE)`. -/
def deviceCalls (W : World ε) (xbox : Bool) : List (Call ε π) :=
  [Call.open_uinput W.open_uinput,
   Call.printf (if xbox then Msg.running_fake_xbox360 else Msg.running_fake_keyboard),
   if xbox then Call.setupFakeXbox360Device else Call.setupFakeKeyboardMouseDevice,
   Call.write_uidev,
   Call.ioctl_UI_DEV_CREATE W.ioctl_UI_DEV_CREATE]

/-- The values main stored into `config_stack[0]`, in order. -/
def stores (t : List (Call ε π)) : List (Option π) :=
  t.filterMap (fun c => match c with
    | Call.store_config_stack0 p => some p
    | _ => none)

/-- The last of the -c and -x options among the getopt returns, if any. -/
def lastModeOption : List GetoptResult → Option Char
  | [] => none
  | r :: rs =>
    match lastModeOption rs with
    | some c => some c
    | none => if r.opt = 'c' ∨ r.opt = 'x' then some r.opt else none

/-- The argument of the last -p option among the getopt returns, if any. -/
def lastControlArg : List GetoptResult → Option CStr
  | [] => none
  | r :: rs =>
    match lastControlArg rs with
    | some a => some a
    | none => if r.opt = 'p' then some r.optarg else none

/-- The control name main keeps from the command line: the first
`MAX_CONTROL_NAME - 1` characters of the last -p argument, empty without -p. -/
def controlName (X : Extern σ ε π) (rs : List GetoptResult) : CStr :=
  match lastControlArg rs with
  | some a => (cstr a).take (X.MAX_CONTROL_NAME - 1)
  | none => []

/-- The state of the other modules when the initial profile is looked up: after
the default configuration file, if there is one, was loaded. -/
def configState (X : Extern σ ε π) (W : World ε) (s : σ) : σ :=
  if W.default_config_exists then (X.config_load s DEFAULT_CONFIG true).2 else s

/-- The profile for a control name: the one `config_find` returns, `root_config`
when it returns NULL or the name is empty. -/
def resolveProfile (X : Extern σ ε π) (s : σ) (name : CStr) : Option π :=
  if name = [] then X.root_config s
  else
    match X.config_find s name with
    | some p => some p
    | none => X.root_config s

/-- The trace `t2` extends `t1` by calls of the class `P` only. -/
def TraceExt (P : Call ε π → Bool) (t1 t2 : List (Call ε π)) : Prop :=
  ∃ a, t2 = t1 ++ a ∧ ∀ c ∈ a, P c = true

/-- The option characters the switch of main has a case for and getopt can return. -/
def knownOpt (c : Char) : Bool :=
  c = 'h' || c = 'd' || c = 'x' || c = 'p' || c = 'c' || c = 'X' || c = 'P' || c = 'H' || c = '?'

end Program

/-! ## A concrete instance of the collaborators, for evaluation -/

/-- A small state of the other modules: the `running` flag of `current_state`, the
number of ticks, the hotkey set, the configuration files loaded and
`config_stack[0]`. -/
structure DemoState where
  running : Bool
  ticks : Nat
  hotkey : Option Int
  loaded : List CStr
  stack0 : Option Nat
  deriving DecidableEq, Repr

/-- The state before main runs. -/
def demoInit : DemoState :=
  { running := false, ticks := 0, hotkey := none, loaded := [], stack0 := none }

/-- The name `bad`, a configuration file that does not load. -/
def badIni : CStr := ['b', 'a', 'd']

/-- The name `menu`, a profile of the registry (profile 1). -/
def menuName : CStr := ['m', 'e', 'n', 'u']

/-- A profile name of 63 characters (profile 2 of the registry). -/
def longName : CStr := List.replicate 63 'a'

/-- Collaborators with `MAX_CONTROL_NAME = 64`: the button `back` is known (number
4); loading `bad` fails; the registry holds the root profile 0, `menu` (1) and
`longName` (2); event 0 is the quit hotkey and clears `running`; a tick counts. -/
def demoX : Extern DemoState Nat Nat :=
  { MAX_CONTROL_NAME := 64,
    state_init := fun s => { s with running := true, ticks := 0 },
    config_init := fun s => { s with loaded := [], stack0 := some 0 },
    find_button := fun _ name => if name = ['b', 'a', 'c', 'k'] then some { gbtn := 4 } else none,
    set_hotkey := fun s b => { s with hotkey := some b },
    config_load := fun s path _ =>
      (if path = badIni then -1 else 0, { s with loaded := s.loaded ++ [path] }),
    config_quit := fun s => { s with loaded := [] },
    config_find := fun _ name =>
      if name = menuName then some 1 else if name = longName then some 2 else none,
    root_config := fun _ => some 0,
    set_config_stack0 := fun s p => { s with stack0 := p },
    config_finalise := fun s => s,
    config_dump := fun s => s,
    setupFakeXbox360Device := fun s => s,
    setupFakeKeyboardMouseDevice := fun s => s,
    handleInputEvent := fun _ s e => if e = 0 then { s with running := false } else s,
    state_update := fun _ s => { s with ticks := s.ticks + 1 },
    running := fun s => s.running }

/-- A world without environment variables and without a default configuration
file, in which SDL and the uinput device work (file descriptor 3), with the given
queues of pending events. -/
def demoW (events : List (List Nat)) : World Nat :=
  { HOTKEY := none, PCKILLMODE := none, NO_PKILL := none,
    SDL_GAMECONTROLLERCONFIG_FILE := none, permute := true,
    default_config_exists := false, SDL_Init := 0, open_uinput := 3,
    ioctl_UI_DEV_CREATE := 0, events := events }

/-- The globals of main.c as initialised. -/
def demoG : Globals Nat := (initMachine demoX demoInit).g

/-- The state of the other modules after `state_init`: `running` is set. -/
def demoRunning : DemoState := demoX.state_init demoInit

/-- The world of `demoW` in which `open` on /dev/uinput fails. -/
def demoWOpenFails : World Nat :=
  { demoW [] with open_uinput := -1 }

/-- The world of `demoW` in which `ioctl(UI_DEV_CREATE)` fails. -/
def demoWCreateFails : World Nat :=
  { demoW [] with ioctl_UI_DEV_CREATE := -1 }

/-- The world of `demoW` in which `SDL_Init` fails. -/
def demoWSdlFails : World Nat :=
  { demoW [] with SDL_Init := -1 }

/-- The world of `demoW` with the environment variable NO_PKILL set. -/
def demoWNoPkill : World Nat :=
  { demoW [] with NO_PKILL := some ['1'] }

/-- The world of `demoW` with the environment variable HOTKEY naming no button. -/
def demoWHotkey : World Nat :=
  { demoW [] with HOTKEY := some ['n', 'o'] }

/-- The program name `argv[0]`. -/
def prog : CStr := ['g', 'p', 't', 'o', 'k', 'e', 'y', 'b', '2']

/-! ## getopt returns only options of the option string -/

theorem optSpec_known (c : Char) (b : Bool) (h : optSpec OPTSTRING c = some b) :
    knownOpt c = true := by
  by_contra hk
  simp [knownOpt] at hk
  obtain ⟨⟨⟨⟨⟨⟨⟨⟨h1, h2⟩, h3⟩, h4⟩, h5⟩, h6⟩, h7⟩, h8⟩, _⟩ := hk
  unfold optSpec OPTSTRING at h
  split at h
  · exact absurd h (by simp)
  · rename_i hc
    simp only [not_or] at hc
    have e1 : ('h' != c) = true := by simpa [bne_iff_ne] using Ne.symm h1
    have e2 : ('d' != c) = true := by simpa [bne_iff_ne] using Ne.symm h2
    have e3 : ('x' != c) = true := by simpa [bne_iff_ne] using Ne.symm h3
    have e4 : ('p' != c) = true := by simpa [bne_iff_ne] using Ne.symm h4
    have e5 : ('c' != c) = true := by simpa [bne_iff_ne] using Ne.symm h5
    have e6 : ('X' != c) = true := by simpa [bne_iff_ne] using Ne.symm h6
    have e7 : ('P' != c) = true := by simpa [bne_iff_ne] using Ne.symm h7
    have e8 : ('H' != c) = true := by simpa [bne_iff_ne] using Ne.symm h8
    have e9 : (':' != c) = true := by simpa [bne_iff_ne] using Ne.symm hc.1
    simp [List.dropWhile, e1, e2, e3, e4, e5, e6, e7, e8, e9] at h

theorem scanCluster_cons (o : List Char) (next : Option CStr) (c : Char) (rest : List Char) :
    scanCluster o next (c :: rest) =
      match optSpec o c with
      | none => ((GetoptResult.error c) :: (scanCluster o next rest).1,
                 (scanCluster o next rest).2)
      | some false => ((GetoptResult.flag c) :: (scanCluster o next rest).1,
                       (scanCluster o next rest).2)
      | some true =>
        if rest ≠ [] then ([GetoptResult.witharg c rest], false)
        else
          match next with
          | some a => ([GetoptResult.witharg c a], true)
          | none => ([GetoptResult.error c], false) := rfl

theorem scanCluster_known (cs : List Char) (next : Option CStr) :
    ∀ r ∈ (scanCluster OPTSTRING next cs).1, knownOpt r.opt = true := by
  induction cs with
  | nil => simp [scanCluster]
  | cons c rest ih =>
    intro r hr
    rw [scanCluster_cons] at hr
    cases hs : optSpec OPTSTRING c with
    | none =>
      simp only [hs, List.mem_cons] at hr
      rcases hr with rfl | hr
      · simp [GetoptResult.opt, knownOpt]
      · exact ih r hr
    | some b =>
      have hk := optSpec_known c b hs
      cases b with
      | false =>
        simp only [hs, List.mem_cons] at hr
        rcases hr with rfl | hr
        · simpa [GetoptResult.opt] using hk
        · exact ih r hr
      | true =>
        simp only [hs] at hr
        split at hr
        · simp at hr
          subst hr
          simpa [GetoptResult.opt] using hk
        · cases next with
          | some a =>
            simp at hr
            subst hr
            simpa [GetoptResult.opt] using hk
          | none =>
            simp at hr
            subst hr
            simp [GetoptResult.opt, knownOpt]

theorem scanArgs_known (permute : Bool) (args : List CStr) :
    ∀ (skip : Bool), ∀ r ∈ (scanArgs permute OPTSTRING skip args).1, knownOpt r.opt = true := by
  induction args with
  | nil => intro skip; simp [scanArgs]
  | cons a rest ih =>
    intro skip r hr
    cases skip with
    | true =>
      simp only [scanArgs] at hr
      exact ih false r hr
    | false =>
      unfold scanArgs at hr
      split at hr
      · simp at hr
      · split at hr
        · simp only [List.mem_append] at hr
          rcases hr with hr | hr
          · exact scanCluster_known _ _ r hr
          · exact ih _ r hr
        · split at hr
          · exact ih false r hr
          · simp at hr

theorem getoptResults_known (permute : Bool) (argv : List CStr) :
    ∀ r ∈ getoptResults permute argv, knownOpt r.opt = true :=
  scanArgs_known permute argv.tail false

/-- The switch of main has a case Z, but getopt never returns Z: it is not in the
option string. -/
theorem getopt_never_Z (permute : Bool) (argv : List CStr) :
    ∀ r ∈ getoptResults permute argv, r.opt ≠ 'Z' := by
  intro r hr h
  have hk := getoptResults_known permute argv r hr
  rw [h] at hk
  exact absurd hk (by decide)

/-! ## strncpy -/

/-- Copying from a source of `n` or more characters, none of them NUL, `strncpy`
writes no NUL. -/
theorem strncpyBytes_no_NUL (n : Nat) :
    ∀ src : List Char, n ≤ src.length → NUL ∉ src → NUL ∉ strncpyBytes n src := by
  induction n with
  | zero => intro src _ _; simp [strncpyBytes]
  | succ n ih =>
    intro src hlen hnul
    cases src with
    | nil => simp at hlen
    | cons c cs =>
      have hc : c ≠ NUL := fun h => hnul (by simp [h])
      have hcs : NUL ∉ cs := fun h => hnul (List.mem_cons_of_mem _ h)
      have := ih cs (by simpa using hlen) hcs
      simp [strncpyBytes, hc, this, Ne.symm hc]

theorem cstr_nil : cstr [] = [] := rfl

theorem cstr_cons (c : Char) (l : List Char) :
    cstr (c :: l) = if c = NUL then [] else c :: cstr l := by
  by_cases h : c = NUL
  · simp [cstr, List.takeWhile, h]
  · have hb : (c != NUL) = true := by simpa [bne_iff_ne] using h
    simp [cstr, List.takeWhile, h, hb]

theorem length_strncpyBytes (n : Nat) : ∀ src : List Char, (strncpyBytes n src).length = n := by
  induction n with
  | zero => intro src; simp [strncpyBytes]
  | succ n ih =>
    intro src
    cases src with
    | nil => simp [strncpyBytes, ih]
    | cons c cs =>
      by_cases h : c = NUL <;> simp [strncpyBytes, h, ih]

theorem strncpy_drop (dest src : List Char) (n : Nat) :
    (strncpy dest src n).drop n = dest.drop n := by
  unfold strncpy
  rw [List.drop_append_of_le_length (by rw [length_strncpyBytes]),
    List.drop_of_length_le (by rw [length_strncpyBytes]), List.nil_append]

/-- When a NUL follows the bytes written, the C string in the buffer after
`strncpy` is the source string cut to at most `n` characters. -/
theorem cstr_strncpyBytes (n : Nat) :
    ∀ (src tail : List Char), cstr tail = [] →
      cstr (strncpyBytes n src ++ tail) = (cstr src).take n := by
  induction n with
  | zero => intro src tail h; simp [strncpyBytes, h]
  | succ n ih =>
    intro src tail h
    cases src with
    | nil => simp [strncpyBytes, cstr_cons, cstr_nil]
    | cons c cs =>
      by_cases hc : c = NUL
      · simp [strncpyBytes, hc, cstr_cons]
      · simp [strncpyBytes, hc, cstr_cons, ih cs tail h]

/-! ## The calls of the start-up stages -/

section StageLemmas

variable {σ ε π : Type}

theorem TraceExt.refl (P : Call ε π → Bool) (t : List (Call ε π)) : TraceExt P t t :=
  ⟨[], by simp, by simp⟩

theorem TraceExt.snoc {P : Call ε π → Bool} {t1 t2 : List (Call ε π)} {c : Call ε π}
    (h : TraceExt P t1 t2) (hc : P c = true) : TraceExt P t1 (t2 ++ [c]) := by
  obtain ⟨a, rfl, ha⟩ := h
  refine ⟨a ++ [c], by simp, ?_⟩
  intro d hd
  simp only [List.mem_append, List.mem_singleton] at hd
  rcases hd with hd | rfl
  · exact ha d hd
  · exact hc

theorem TraceExt.trans {P : Call ε π → Bool} {t1 t2 t3 : List (Call ε π)}
    (h12 : TraceExt P t1 t2) (h23 : TraceExt P t2 t3) : TraceExt P t1 t3 := by
  obtain ⟨a, rfl, ha⟩ := h12
  obtain ⟨b, rfl, hb⟩ := h23
  refine ⟨a ++ b, by simp, ?_⟩
  intro d hd
  simp only [List.mem_append] at hd
  rcases hd with hd | hd
  · exact ha d hd
  · exact hb d hd

theorem hotkeyEnv_trace (X : Extern σ ε π) (W : World ε) (m : Machine σ ε π) :
    TraceExt parseCall m.trace (hotkeyEnv X W m).trace := by
  unfold hotkeyEnv
  rcases h1 : W.HOTKEY with _ | name
  · exact TraceExt.refl _ _
  · rcases h2 : X.find_button m.ext name with _ | b <;>
      simp only [h2, Machine.emit, Machine.withExt] <;>
      (repeat' first | exact TraceExt.refl _ _ | rfl | apply TraceExt.snoc)

theorem pckillEnv_trace (W : World ε) (m : Machine σ ε π) :
    TraceExt parseCall m.trace (pckillEnv W m).trace := by
  unfold pckillEnv
  rcases h1 : W.PCKILLMODE with _ | v
  · exact TraceExt.refl _ _
  · by_cases h : v = ['Y'] <;> simp only [h, if_true, if_false, Machine.emit] <;>
      (repeat' first | exact TraceExt.refl _ _ | rfl | apply TraceExt.snoc)

theorem noPkillEnv_trace (W : World ε) (m : Machine σ ε π) :
    (noPkillEnv W m).trace = m.trace := by
  unfold noPkillEnv
  cases W.NO_PKILL <;> rfl

theorem envStage_trace (X : Extern σ ε π) (W : World ε) (m : Machine σ ε π) :
    TraceExt parseCall m.trace (envStage X W m).trace := by
  unfold envStage
  rw [noPkillEnv_trace]
  refine TraceExt.trans ?_ (pckillEnv_trace W _)
  refine TraceExt.trans ?_ (hotkeyEnv_trace X W _)
  simp only [Machine.emit, Machine.withExt]
  repeat' first | exact TraceExt.refl _ _ | rfl | apply TraceExt.snoc

theorem hotkeyEnv_frame (X : Extern σ ε π) (W : World ε) (m : Machine σ ε π) :
    (hotkeyEnv X W m).g = m.g ∧ (hotkeyEnv X W m).default_control = m.default_control := by
  unfold hotkeyEnv
  rcases h1 : W.HOTKEY with _ | name
  · exact ⟨rfl, rfl⟩
  · rcases h2 : X.find_button m.ext name with _ | b <;> simp only [h2] <;> exact ⟨rfl, rfl⟩

theorem pckillEnv_frame (W : World ε) (m : Machine σ ε π) :
    (pckillEnv W m).g.config_mode = m.g.config_mode ∧
      (pckillEnv W m).g.xbox360_mode = m.g.xbox360_mode ∧
      (pckillEnv W m).g.default_config = m.g.default_config ∧
      (pckillEnv W m).default_control = m.default_control := by
  unfold pckillEnv
  rcases h1 : W.PCKILLMODE with _ | v
  · exact ⟨rfl, rfl, rfl, rfl⟩
  · by_cases h : v = ['Y'] <;> simp [h, Machine.emit]

theorem noPkillEnv_frame (W : World ε) (m : Machine σ ε π) :
    (noPkillEnv W m).g.config_mode = m.g.config_mode ∧
      (noPkillEnv W m).g.xbox360_mode = m.g.xbox360_mode ∧
      (noPkillEnv W m).g.default_config = m.g.default_config ∧
      (noPkillEnv W m).default_control = m.default_control := by
  unfold noPkillEnv
  cases W.NO_PKILL <;> exact ⟨rfl, rfl, rfl, rfl⟩

/-- The environment stage leaves the mode flags, `default_config` and
`default_control` as they were. -/
theorem envStage_frame (X : Extern σ ε π) (W : World ε) (m : Machine σ ε π) :
    (envStage X W m).g.config_mode = m.g.config_mode ∧
      (envStage X W m).g.xbox360_mode = m.g.xbox360_mode ∧
      (envStage X W m).g.default_config = m.g.default_config ∧
      (envStage X W m).default_control = m.default_control := by
  unfold envStage
  obtain ⟨a1, a2, a3, a4⟩ := noPkillEnv_frame W (pckillEnv W (hotkeyEnv X W
    ((((m.emit Call.state_init).withExt (X.state_init m.ext)).emit Call.config_init).withExt
      (X.config_init (X.state_init m.ext)))))
  obtain ⟨b1, b2, b3, b4⟩ := pckillEnv_frame W (hotkeyEnv X W
    ((((m.emit Call.state_init).withExt (X.state_init m.ext)).emit Call.config_init).withExt
      (X.config_init (X.state_init m.ext))))
  obtain ⟨c1, c2⟩ := hotkeyEnv_frame X W
    ((((m.emit Call.state_init).withExt (X.state_init m.ext)).emit Call.config_init).withExt
      (X.config_init (X.state_init m.ext)))
  rw [a1, a2, a3, a4, b1, b2, b3, b4, c1, c2]
  exact ⟨rfl, rfl, rfl, rfl⟩

theorem caseX_trace (m : Machine σ ε π) : TraceExt parseCall m.trace (caseX m).trace := by
  unfold caseX
  split <;> (try simp only [Machine.emit]) <;>
    (repeat' first | exact TraceExt.refl _ _ | rfl | apply TraceExt.snoc)

theorem caseZ_trace (m : Machine σ ε π) : TraceExt parseCall m.trace (caseZ m).trace := by
  unfold caseZ
  split <;> (try simp only [Machine.emit]) <;>
    (repeat' first | exact TraceExt.refl _ _ | rfl | apply TraceExt.snoc)

theorem caseP_trace (m : Machine σ ε π) : TraceExt parseCall m.trace (caseP m).trace := by
  unfold caseP
  split <;> (try simp only [Machine.emit]) <;>
    (repeat' first | exact TraceExt.refl _ _ | rfl | apply TraceExt.snoc)

theorem caseH_trace (X : Extern σ ε π) (m : Machine σ ε π) (optarg : CStr) :
    TraceExt parseCall m.trace (caseH X m optarg).trace := by
  unfold caseH
  rcases h2 : X.find_button m.ext optarg with _ | b <;>
    simp only [Machine.emit, Machine.withExt] <;> (repeat' first | exact TraceExt.refl _ _ | rfl | apply TraceExt.snoc)

theorem casec_trace (X : Extern σ ε π) (m : Machine σ ε π) (optarg : CStr) :
    TraceExt parseCall m.trace (casec X m optarg).trace := by
  simp only [casec]
  repeat' first | exact TraceExt.refl _ _ | rfl | apply TraceExt.snoc

theorem casep_trace (X : Extern σ ε π) (m : Machine σ ε π) (optarg : CStr) :
    TraceExt parseCall m.trace (casep X m optarg).trace := by
  simp only [casep]
  repeat' first | exact TraceExt.refl _ _ | rfl | apply TraceExt.snoc

theorem caseh_trace (a : CStr) (m : Machine σ ε π) :
    TraceExt parseCall m.trace (caseh a m).trace := by
  simp only [caseh, Machine.emit]
  repeat' first | exact TraceExt.refl _ _ | rfl | apply TraceExt.snoc

theorem caseQuestion_trace (a : CStr) (m : Machine σ ε π) (c : Char) :
    TraceExt parseCall m.trace (caseQuestion a m c).trace := by
  simp only [caseQuestion, caseh, Machine.emit]
  repeat' first | exact TraceExt.refl _ _ | rfl | apply TraceExt.snoc

theorem caseDefault_trace (X : Extern σ ε π) (m : Machine σ ε π) :
    TraceExt parseCall m.trace (caseDefault X m).trace := by
  simp only [caseDefault, Machine.emit, Machine.withExt]
  repeat' first | exact TraceExt.refl _ _ | rfl | apply TraceExt.snoc

theorem optionCase_trace (X : Extern σ ε π) (a : CStr) (m : Machine σ ε π) (r : GetoptResult) :
    TraceExt parseCall m.trace (optionCase X a m r).1.trace := by
  unfold optionCase
  by_cases hX : r.opt = 'X'
  · simp only [hX, if_true]
    exact caseX_trace m
  by_cases hZ : r.opt = 'Z'
  · simp only [hX, hZ, if_true, if_false]
    exact caseZ_trace m
  by_cases hP : r.opt = 'P'
  · simp only [hX, hZ, hP, if_true, if_false]
    exact caseP_trace m
  by_cases hH : r.opt = 'H'
  · simp only [hX, hZ, hP, hH, if_true, if_false]
    exact caseH_trace X m _
  by_cases hd : r.opt = 'd'
  · simp only [hX, hZ, hP, hH, hd, if_true, if_false, cased]
    exact TraceExt.refl _ _
  by_cases hc : r.opt = 'c'
  · simp only [hX, hZ, hP, hH, hd, hc, if_true, if_false]
    exact casec_trace X m _
  by_cases hx : r.opt = 'x'
  · simp only [hX, hZ, hP, hH, hd, hc, hx, if_true, if_false, casex]
    exact TraceExt.refl _ _
  by_cases hp : r.opt = 'p'
  · simp only [hX, hZ, hP, hH, hd, hc, hx, hp, if_true, if_false]
    exact casep_trace X m _
  by_cases hq : r.opt = '?'
  · simp only [hX, hZ, hP, hH, hd, hc, hx, hp, hq, if_true, if_false]
    exact caseQuestion_trace a m _
  by_cases hh : r.opt = 'h'
  · simp only [hX, hZ, hP, hH, hd, hc, hx, hp, hq, hh, if_true, if_false]
    exact caseh_trace a m
  simp only [hX, hZ, hP, hH, hd, hc, hx, hp, hq, hh, if_false]
  exact caseDefault_trace X m

theorem optionCase_known (X : Extern σ ε π) (a : CStr) (m : Machine σ ε π) (r : GetoptResult)
    (h : knownOpt r.opt = true) : (optionCase X a m r).2 = none := by
  unfold optionCase
  by_cases hX : r.opt = 'X'
  · simp [hX]
  by_cases hZ : r.opt = 'Z'
  · simp [hZ]
  by_cases hP : r.opt = 'P'
  · simp [hP]
  by_cases hH : r.opt = 'H'
  · simp [hH]
  by_cases hd : r.opt = 'd'
  · simp [hd]
  by_cases hc : r.opt = 'c'
  · simp [hc]
  by_cases hx : r.opt = 'x'
  · simp [hx]
  by_cases hp : r.opt = 'p'
  · simp [hp]
  by_cases hq : r.opt = '?'
  · simp [hq]
  by_cases hh : r.opt = 'h'
  · simp [hh]
  exfalso
  simp only [knownOpt, Bool.or_eq_true, decide_eq_true_eq] at h
  tauto

theorem caseX_frame (m : Machine σ ε π) :
    (caseX m).g.config_mode = m.g.config_mode ∧ (caseX m).g.xbox360_mode = m.g.xbox360_mode ∧
      (caseX m).g.default_config = m.g.default_config ∧
      (caseX m).default_control = m.default_control := by
  unfold caseX
  split <;> exact ⟨rfl, rfl, rfl, rfl⟩

theorem caseZ_frame (m : Machine σ ε π) :
    (caseZ m).g.config_mode = m.g.config_mode ∧ (caseZ m).g.xbox360_mode = m.g.xbox360_mode ∧
      (caseZ m).g.default_config = m.g.default_config ∧
      (caseZ m).default_control = m.default_control := by
  unfold caseZ
  split <;> exact ⟨rfl, rfl, rfl, rfl⟩

theorem caseP_frame (m : Machine σ ε π) :
    (caseP m).g.config_mode = m.g.config_mode ∧ (caseP m).g.xbox360_mode = m.g.xbox360_mode ∧
      (caseP m).g.default_config = m.g.default_config ∧
      (caseP m).default_control = m.default_control := by
  unfold caseP
  split <;> exact ⟨rfl, rfl, rfl, rfl⟩

theorem caseH_frame (X : Extern σ ε π) (m : Machine σ ε π) (optarg : CStr) :
    (caseH X m optarg).g = m.g ∧ (caseH X m optarg).default_control = m.default_control := by
  unfold caseH
  rcases h2 : X.find_button m.ext optarg with _ | b <;> exact ⟨rfl, rfl⟩

/-- What one pass through the switch does to the mode flags, `default_config` and
`default_control`. -/
theorem optionCase_frame (X : Extern σ ε π) (a : CStr) (m : Machine σ ε π) (r : GetoptResult) :
    (optionCase X a m r).1.g.config_mode =
        (if r.opt = 'c' then true else if r.opt = 'x' then false else m.g.config_mode) ∧
      (optionCase X a m r).1.g.xbox360_mode =
        (if r.opt = 'c' then false else if r.opt = 'x' then true else m.g.xbox360_mode) ∧
      (optionCase X a m r).1.g.default_config = m.g.default_config ∧
      (optionCase X a m r).1.default_control =
        (if r.opt = 'p' then strncpy m.default_control r.optarg (X.MAX_CONTROL_NAME - 1)
         else m.default_control) := by
  unfold optionCase
  by_cases hX : r.opt = 'X'
  · simp only [hX, if_true]
    obtain ⟨h1, h2, h3, h4⟩ := caseX_frame m
    simp [h1, h2, h3, h4]
  by_cases hZ : r.opt = 'Z'
  · simp only [hZ, if_true]
    obtain ⟨h1, h2, h3, h4⟩ := caseZ_frame m
    simp [h1, h2, h3, h4]
  by_cases hP : r.opt = 'P'
  · simp only [hP, if_true]
    obtain ⟨h1, h2, h3, h4⟩ := caseP_frame m
    simp [h1, h2, h3, h4]
  by_cases hH : r.opt = 'H'
  · simp only [hH, if_true]
    obtain ⟨h1, h2⟩ := caseH_frame X m r.optarg
    simp [h1, h2]
  by_cases hd : r.opt = 'd'
  · simp [hd, cased]
  by_cases hc : r.opt = 'c'
  · simp [hc, casec]
  by_cases hx : r.opt = 'x'
  · simp [hx, casex]
  by_cases hp : r.opt = 'p'
  · simp [hp, casep]
  by_cases hq : r.opt = '?'
  · simp [hq, caseQuestion, caseh, Machine.emit]
  by_cases hh : r.opt = 'h'
  · simp [hh, caseh, Machine.emit]
  simp [hX, hZ, hP, hH, hd, hc, hx, hp, hq, hh, caseDefault, Machine.emit, Machine.withExt]

theorem optionLoop_trace (X : Extern σ ε π) (a : CStr) (rs : List GetoptResult) :
    ∀ m : Machine σ ε π, TraceExt parseCall m.trace (optionLoop X a m rs).1.trace := by
  induction rs with
  | nil => intro m; exact TraceExt.refl _ _
  | cons r rs ih =>
    intro m
    have h1 := optionCase_trace X a m r
    unfold optionLoop
    rcases h : optionCase X a m r with ⟨m1, _ | code⟩
    · rw [h] at h1
      exact TraceExt.trans h1 (ih m1)
    · rw [h] at h1
      exact h1

/-- Over getopt returns the switch knows, the option loop never calls `exit`; the
mode flags follow the last of the -c and -x options and `default_config` stays
untouched. -/
theorem optionLoop_spec (X : Extern σ ε π) (a : CStr) (rs : List GetoptResult) :
    ∀ m : Machine σ ε π, (∀ r ∈ rs, knownOpt r.opt = true) →
      (optionLoop X a m rs).2 = none ∧
      (optionLoop X a m rs).1.g.config_mode =
        (match lastModeOption rs with
          | some c => decide (c = 'c')
          | none => m.g.config_mode) ∧
      (optionLoop X a m rs).1.g.xbox360_mode =
        (match lastModeOption rs with
          | some c => decide (c = 'x')
          | none => m.g.xbox360_mode) ∧
      (optionLoop X a m rs).1.g.default_config = m.g.default_config := by
  induction rs with
  | nil => intro m _; simp [optionLoop, lastModeOption]
  | cons r rs ih =>
    intro m hk
    have hr := optionCase_known X a m r (hk r (List.mem_cons_self _ _))
    obtain ⟨f1, f2, f3, _⟩ := optionCase_frame X a m r
    obtain ⟨i1, i2, i3, i4⟩ := ih (optionCase X a m r).1
      (fun r2 h2 => hk r2 (List.mem_cons_of_mem _ h2))
    have hstep : optionLoop X a m (r :: rs) = optionLoop X a (optionCase X a m r).1 rs := by
      rcases h : optionCase X a m r with ⟨m1, _ | code⟩
      · simp [optionLoop, h]
      · rw [h] at hr; simp at hr
    rw [hstep, i2, i3, i4, f1, f2, f3]
    refine ⟨i1, ?_, ?_, rfl⟩
    · simp only [lastModeOption]
      cases lastModeOption rs with
      | some c => rfl
      | none =>
        by_cases hc : r.opt = 'c'
        · simp [hc]
        · by_cases hx : r.opt = 'x'
          · simp [hx]
          · simp [hc, hx]
    · simp only [lastModeOption]
      cases lastModeOption rs with
      | some c => rfl
      | none =>
        by_cases hc : r.opt = 'c'
        · simp [hc]
        · by_cases hx : r.opt = 'x'
          · simp [hx]
          · simp [hc, hx]

/-- The buffer `default_control` after the option loop holds the control name of
the command line. -/
theorem optionLoop_control (X : Extern σ ε π) (a : CStr) (rs : List GetoptResult) :
    ∀ m : Machine σ ε π, (∀ r ∈ rs, knownOpt r.opt = true) →
      cstr (m.default_control.drop (X.MAX_CONTROL_NAME - 1)) = [] →
      cstr (optionLoop X a m rs).1.default_control =
        (match lastControlArg rs with
          | some arg => (cstr arg).take (X.MAX_CONTROL_NAME - 1)
          | none => cstr m.default_control) := by
  induction rs with
  | nil => intro m _ _; simp [optionLoop, lastControlArg]
  | cons r rs ih =>
    intro m hk hb
    have hr := optionCase_known X a m r (hk r (List.mem_cons_self _ _))
    obtain ⟨_, _, _, f4⟩ := optionCase_frame X a m r
    have hstep : optionLoop X a m (r :: rs) = optionLoop X a (optionCase X a m r).1 rs := by
      rcases h : optionCase X a m r with ⟨m1, _ | code⟩
      · simp [optionLoop, h]
      · rw [h] at hr; simp at hr
    have hb1 : cstr ((optionCase X a m r).1.default_control.drop (X.MAX_CONTROL_NAME - 1))
        = [] := by
      rw [f4]
      by_cases hp : r.opt = 'p'
      · simp only [hp, if_true]
        rw [strncpy_drop]
        exact hb
      · simp only [hp, if_false]
        exact hb
    rw [hstep, ih _ (fun r2 h2 => hk r2 (List.mem_cons_of_mem _ h2)) hb1]
    simp only [lastControlArg]
    cases lastControlArg rs with
    | some arg => rfl
    | none =>
      rw [f4]
      by_cases hp : r.opt = 'p'
      · simp only [hp, if_true]
        unfold strncpy
        exact cstr_strncpyBytes _ _ _ hb
      · simp only [hp, if_false]

theorem foldl_extra (rest : List CStr) :
    ∀ acc : Machine σ ε π,
      TraceExt parseCall acc.trace
          (rest.foldl (fun acc x => acc.emit (Call.printf (Msg.extra_option x))) acc).trace ∧
        (rest.foldl (fun acc x => acc.emit (Call.printf (Msg.extra_option x))) acc).g = acc.g ∧
        (rest.foldl (fun acc x => acc.emit (Call.printf (Msg.extra_option x))) acc).default_control
          = acc.default_control ∧
        (rest.foldl (fun acc x => acc.emit (Call.printf (Msg.extra_option x))) acc).ext = acc.ext ∧
        (rest.foldl (fun acc x => acc.emit (Call.printf (Msg.extra_option x))) acc).do_dump_config
          = acc.do_dump_config := by
  induction rest with
  | nil => intro acc; exact ⟨TraceExt.refl _ _, rfl, rfl, rfl, rfl⟩
  | cons x rest ih =>
    intro acc
    obtain ⟨h1, h2, h3, h4, h5⟩ := ih (acc.emit (Call.printf (Msg.extra_option x)))
    simp only [List.foldl_cons]
    refine ⟨TraceExt.trans ?_ h1, ?_, ?_, ?_, ?_⟩
    · simp only [Machine.emit]
      repeat' first | exact TraceExt.refl _ _ | rfl | apply TraceExt.snoc
    · rw [h2]; rfl
    · rw [h3]; rfl
    · rw [h4]; rfl
    · rw [h5]; rfl

/-- The positional arguments only add print calls; they leave the mode flags,
`default_config`, `default_control`, `do_dump_config` and the other modules alone. -/
theorem positionalStage_spec (m : Machine σ ε π) (ps : List CStr) :
    TraceExt parseCall m.trace (positionalStage m ps).trace ∧
      (positionalStage m ps).g.config_mode = m.g.config_mode ∧
      (positionalStage m ps).g.xbox360_mode = m.g.xbox360_mode ∧
      (positionalStage m ps).g.default_config = m.g.default_config ∧
      (positionalStage m ps).default_control = m.default_control ∧
      (positionalStage m ps).ext = m.ext ∧
      (positionalStage m ps).do_dump_config = m.do_dump_config := by
  cases ps with
  | nil => exact ⟨TraceExt.refl _ _, rfl, rfl, rfl, rfl, rfl, rfl⟩
  | cons a rest =>
    obtain ⟨h1, h2, h3, h4, h5⟩ := foldl_extra rest
      ({ m with g := { m.g with
          kill_process_name := strncpy m.g.kill_process_name a MAX_PROCESS_NAME } } :
        Machine σ ε π)
    simp only [positionalStage]
    refine ⟨h1, ?_, ?_, ?_, ?_, ?_, ?_⟩
    · rw [h2]
    · rw [h2]
    · rw [h2]
    · rw [h3]
    · rw [h4]
    · rw [h5]

theorem stores_append (t1 t2 : List (Call ε π)) : stores (t1 ++ t2) = stores t1 ++ stores t2 := by
  simp [stores]

theorem stores_single_parse (c : Call ε π) (h : parseCall c = true) : stores [c] = [] := by
  cases c <;> first | rfl | exact absurd h (by simp [parseCall])

theorem stores_single_run (c : Call ε π) (h : runCall c = true) : stores [c] = [] := by
  cases c <;> first | rfl | exact absurd h (by simp [runCall])

theorem stores_of_parse (t : List (Call ε π)) (h : ∀ c ∈ t, parseCall c = true) :
    stores t = [] := by
  induction t with
  | nil => rfl
  | cons c t ih =>
    have hc := stores_single_parse c (h c (List.mem_cons_self _ _))
    have ht := ih (fun d hd => h d (List.mem_cons_of_mem _ hd))
    have := stores_append [c] t
    simp only [List.singleton_append] at this
    rw [this, hc, ht]
    rfl

theorem stores_of_run (t : List (Call ε π)) (h : ∀ c ∈ t, runCall c = true) :
    stores t = [] := by
  induction t with
  | nil => rfl
  | cons c t ih =>
    have hc := stores_single_run c (h c (List.mem_cons_self _ _))
    have ht := ih (fun d hd => h d (List.mem_cons_of_mem _ hd))
    have := stores_append [c] t
    simp only [List.singleton_append] at this
    rw [this, hc, ht]
    rfl

/-- The configuration block: it is skipped outside config mode; it makes main return
1 exactly when the default configuration file exists and fails to load; otherwise
its last call stores the resolved profile into `config_stack[0]`. -/
theorem configStage_spec (X : Extern σ ε π) (W : World ε) (m : Machine σ ε π)
    (hdc : m.g.default_config = none) :
    (configStage X W m).1.g.config_mode = m.g.config_mode ∧
      (configStage X W m).1.g.xbox360_mode = m.g.xbox360_mode ∧
      (configStage X W m).1.do_dump_config = m.do_dump_config ∧
      ((configStage X W m).2 = none ∨ (configStage X W m).2 = some 1) ∧
      ((configStage X W m).2 = some 1 ↔
        (m.g.config_mode = true ∧ W.default_config_exists = true ∧
          (X.config_load m.ext DEFAULT_CONFIG true).1 ≠ 0)) ∧
      ∃ t, (configStage X W m).1.trace = m.trace ++ t ∧ (∀ c ∈ t, midCall c = true) ∧
        ((configStage X W m).2 = none →
          stores t = if m.g.config_mode then
            [resolveProfile X (configState X W m.ext) (cstr m.default_control)] else []) := by
  unfold configStage
  by_cases hcfg : m.g.config_mode = true
  · by_cases hex : W.default_config_exists = true
    · by_cases hret : (X.config_load m.ext DEFAULT_CONFIG true).1 = 0
      · by_cases hname : cstr m.default_control = []
        · simp [hcfg, hex, hret, hname, hdc, Machine.emit, Machine.withExt, stores,
            resolveProfile, configState, midCall]
        · rcases hf : X.config_find (X.config_load m.ext DEFAULT_CONFIG true).2
            (cstr m.default_control) with _ | q <;>
          simp [hcfg, hex, hret, hname, hdc, hf, Machine.emit, Machine.withExt, stores,
            resolveProfile, configState, midCall]
      · simp [hcfg, hex, hret, Machine.emit, Machine.withExt, stores, midCall]
    · by_cases hname : cstr m.default_control = []
      · simp [hcfg, hex, hname, hdc, Machine.emit, Machine.withExt, stores,
          resolveProfile, configState, midCall]
      · rcases hf : X.config_find m.ext (cstr m.default_control) with _ | q <;>
        simp [hcfg, hex, hname, hdc, hf, Machine.emit, Machine.withExt, stores,
          resolveProfile, configState, midCall]
  · simp [hcfg, stores]

theorem finaliseStage_spec (X : Extern σ ε π) (m : Machine σ ε π) :
    (finaliseStage X m).g = m.g ∧
      ∃ t, (finaliseStage X m).trace = m.trace ++ t ∧ (∀ c ∈ t, midCall c = true) ∧
        stores t = [] := by
  unfold finaliseStage
  by_cases hd : m.do_dump_config = true
  · simp [hd, Machine.emit, Machine.withExt, midCall, stores]
  · simp [hd, Machine.emit, Machine.withExt, midCall, stores]

/-- The device block, case by case. -/
theorem deviceStage_spec (X : Extern σ ε π) (W : World ε) (m : Machine σ ε π) :
    ((m.g.config_mode || m.g.xbox360_mode) = false → deviceStage X W m = (m, none)) ∧
      ((m.g.config_mode || m.g.xbox360_mode) = true → W.open_uinput < 0 →
        (deviceStage X W m).2 = some (-1) ∧
          (deviceStage X W m).1.trace =
            m.trace ++ [Call.open_uinput W.open_uinput, Call.printf Msg.unable_to_open_uinput]) ∧
      ((m.g.config_mode || m.g.xbox360_mode) = true → 0 ≤ W.open_uinput →
        W.ioctl_UI_DEV_CREATE ≠ 0 →
        (deviceStage X W m).2 = some (-1) ∧
          (deviceStage X W m).1.trace =
            m.trace ++ deviceCalls W m.g.xbox360_mode ++
              [Call.printf Msg.unable_to_create_uinput]) ∧
      ((m.g.config_mode || m.g.xbox360_mode) = true → 0 ≤ W.open_uinput →
        W.ioctl_UI_DEV_CREATE = 0 →
        (deviceStage X W m).2 = none ∧
          (deviceStage X W m).1.trace = m.trace ++ deviceCalls W m.g.xbox360_mode ∧
          (deviceStage X W m).1.g.config_mode = m.g.config_mode ∧
          (deviceStage X W m).1.g.xbox360_mode = m.g.xbox360_mode) := by
  unfold deviceStage
  refine ⟨?_, ?_, ?_, ?_⟩
  · intro hm
    simp [hm]
  · intro hm ho
    simp [hm, ho, Machine.emit]
  · intro hm ho hc
    have ho2 : ¬ W.open_uinput < 0 := not_lt.mpr ho
    by_cases hx : m.g.xbox360_mode = true
    · simp [ho2, hc, hx, Machine.emit, Machine.withExt, deviceCalls]
    · have hcm : m.g.config_mode = true := by
        cases h1 : m.g.config_mode <;> cases h2 : m.g.xbox360_mode <;> simp_all
      simp [hcm, ho2, hc, hx, Machine.emit, Machine.withExt, deviceCalls]
  · intro hm ho hc
    have ho2 : ¬ W.open_uinput < 0 := not_lt.mpr ho
    by_cases hx : m.g.xbox360_mode = true
    · simp [ho2, hc, hx, Machine.emit, Machine.withExt, deviceCalls]
    · have hcm : m.g.config_mode = true := by
        cases h1 : m.g.config_mode <;> cases h2 : m.g.xbox360_mode <;> simp_all
      simp [hcm, ho2, hc, hx, Machine.emit, Machine.withExt, deviceCalls]

theorem pollLoop_run (X : Extern σ ε π) (g : Globals π) (q : List ε) :
    ∀ s : σ, ∀ c ∈ (pollLoop X g s q).1, runCall c = true := by
  induction q with
  | nil =>
    intro s c hc
    by_cases hr : X.running s = true
    · simp [pollLoop, hr] at hc
      subst hc
      rfl
    · simp [pollLoop, hr] at hc
  | cons e q ih =>
    intro s c hc
    by_cases hr : X.running s = true
    · simp only [pollLoop, hr, if_true, List.mem_cons] at hc
      rcases hc with rfl | rfl | hc
      · rfl
      · rfl
      · exact ih _ c hc
    · simp [pollLoop, hr] at hc

theorem controlLoop_run (X : Extern σ ε π) (g : Globals π) (qs : List (List ε)) :
    ∀ s : σ, ∀ c ∈ (controlLoop X g s qs).1, runCall c = true := by
  induction qs with
  | nil => intro s c hc; simp [controlLoop] at hc
  | cons q qs ih =>
    intro s c hc
    by_cases hr : X.running s = true
    · simp only [controlLoop, hr, if_true, loopIteration, List.mem_append, List.mem_cons,
        List.mem_singleton, List.not_mem_nil, or_false] at hc
      rcases hc with (hc | rfl | rfl) | hc
      · exact pollLoop_run X g q s c hc
      · rfl
      · rfl
      · exact ih _ c hc
    · simp [controlLoop, hr] at hc

theorem loopStage_spec (X : Extern σ ε π) (W : World ε) (m : Machine σ ε π) :
    ∃ tR, (∀ c ∈ tR, runCall c = true) ∧ (loopStage X W m).m.trace = m.trace ++ tR ∧
      ((loopStage X W m).outcome = Outcome.returned 0 ∨
        (loopStage X W m).outcome = Outcome.running) := by
  have hdb : ∃ d, (dbStage W m).trace = m.trace ++ d ∧ ∀ c ∈ d, runCall c = true := by
    unfold dbStage
    rcases h : W.SDL_GAMECONTROLLERCONFIG_FILE with _ | f
    · exact ⟨[], by simp, by simp⟩
    · exact ⟨[Call.SDL_GameControllerAddMappingsFromFile f], by simp [Machine.emit],
        by simp [runCall]⟩
  obtain ⟨d, hd, hdr⟩ := hdb
  have hl := controlLoop_run X (dbStage W m).g W.events (dbStage W m).ext
  unfold loopStage
  by_cases hdone : (controlLoop X (dbStage W m).g (dbStage W m).ext W.events).2.2 = true
  · refine ⟨d ++ (controlLoop X (dbStage W m).g (dbStage W m).ext W.events).1 ++ teardown,
      ?_, ?_, ?_⟩
    · intro c hc
      simp only [List.mem_append] at hc
      rcases hc with (hc | hc) | hc
      · exact hdr c hc
      · exact hl c hc
      · simp only [teardown, List.mem_cons, List.mem_singleton, List.not_mem_nil,
          or_false] at hc
        rcases hc with rfl | rfl | rfl | rfl <;> rfl
    · simp [hdone, hd]
    · simp [hdone]
  · refine ⟨d ++ (controlLoop X (dbStage W m).g (dbStage W m).ext W.events).1, ?_, ?_, ?_⟩
    · intro c hc
      simp only [List.mem_append] at hc
      rcases hc with hc | hc
      · exact hdr c hc
      · exact hl c hc
    · simp [hdone, hd]
    · simp [hdone]

theorem cstr_replicate_NUL (j : Nat) : cstr (List.replicate j NUL) = [] := by
  cases j with
  | zero => rfl
  | succ j => simp [List.replicate, cstr_cons]

theorem cstr_zeroBuf_drop (n k : Nat) : cstr ((zeroBuf n).drop k) = [] := by
  unfold zeroBuf
  rw [List.drop_replicate]
  exact cstr_replicate_NUL _

/-- Option parsing as a whole: `exit` is never called, only parse-time calls are
made, the mode flags follow the last of the -c and -x options, `default_config` is
still NULL and `default_control` holds the control name. -/
theorem parsed_spec (X : Extern σ ε π) (W : World ε) (s0 : σ) (argv : List CStr) :
    (parsed X W s0 argv).2 = none ∧
      (∀ c ∈ (parsed X W s0 argv).1.trace, parseCall c = true) ∧
      (parsed X W s0 argv).1.g.config_mode =
        (match lastModeOption (getoptResults W.permute argv) with
          | some c => decide (c = 'c')
          | none => false) ∧
      (parsed X W s0 argv).1.g.xbox360_mode =
        (match lastModeOption (getoptResults W.permute argv) with
          | some c => decide (c = 'x')
          | none => false) ∧
      (parsed X W s0 argv).1.g.default_config = none ∧
      cstr (parsed X W s0 argv).1.default_control =
        controlName X (getoptResults W.permute argv) := by
  have hk := getoptResults_known W.permute argv
  obtain ⟨e1, e2, e3, e4⟩ := envStage_frame X W (initMachine X s0)
  obtain ⟨s1, s2, s3, s4⟩ := optionLoop_spec X (argv.headD []) (getoptResults W.permute argv)
    (envStage X W (initMachine X s0)) hk
  have hb : cstr ((envStage X W (initMachine X s0)).default_control.drop
      (X.MAX_CONTROL_NAME - 1)) = [] := by
    rw [e4]
    exact cstr_zeroBuf_drop _ _
  have hctl := optionLoop_control X (argv.headD []) (getoptResults W.permute argv)
    (envStage X W (initMachine X s0)) hk hb
  have ht := TraceExt.trans (envStage_trace X W (initMachine X s0))
    (optionLoop_trace X (argv.headD []) (getoptResults W.permute argv)
      (envStage X W (initMachine X s0)))
  unfold parsed
  refine ⟨s1, ?_, ?_, ?_, ?_, ?_⟩
  · obtain ⟨a, ha, hP⟩ := ht
    rw [ha]
    intro c hc
    simp only [initMachine, List.nil_append] at hc
    exact hP c hc
  · rw [s2, e1]; rfl
  · rw [s3, e2]; rfl
  · rw [s4, e3]; rfl
  · rw [hctl, e4]
    unfold controlName
    cases lastControlArg (getoptResults W.permute argv) with
    | some arg => rfl
    | none =>
      simp only [initMachine]
      have := cstr_zeroBuf_drop X.MAX_CONTROL_NAME 0
      simpa using this

/-- Lines 240 to 319, path by path: `SDL_Init` fails; `open` fails; `UI_DEV_CREATE`
fails; or the loop is entered, after the device calls when a mode is set. -/
theorem sdlStage_spec (X : Extern σ ε π) (W : World ε) (m : Machine σ ε π) :
    (W.SDL_Init ≠ 0 ∧
        (sdlStage X W m).m.trace =
          m.trace ++ [Call.SDL_Init W.SDL_Init, Call.printf Msg.sdl_init_failed] ∧
        (sdlStage X W m).outcome = Outcome.returned (-1)) ∨
      (W.SDL_Init = 0 ∧ (m.g.config_mode || m.g.xbox360_mode) = true ∧ W.open_uinput < 0 ∧
        (sdlStage X W m).m.trace = m.trace ++ [Call.SDL_Init W.SDL_Init] ++
          [Call.open_uinput W.open_uinput, Call.printf Msg.unable_to_open_uinput] ∧
        (sdlStage X W m).outcome = Outcome.returned (-1)) ∨
      (W.SDL_Init = 0 ∧ (m.g.config_mode || m.g.xbox360_mode) = true ∧ 0 ≤ W.open_uinput ∧
        W.ioctl_UI_DEV_CREATE ≠ 0 ∧
        (sdlStage X W m).m.trace = m.trace ++ [Call.SDL_Init W.SDL_Init] ++
          deviceCalls W m.g.xbox360_mode ++ [Call.printf Msg.unable_to_create_uinput] ∧
        (sdlStage X W m).outcome = Outcome.returned (-1)) ∨
      (∃ tR, W.SDL_Init = 0 ∧ (∀ c ∈ tR, runCall c = true) ∧
        ((m.g.config_mode || m.g.xbox360_mode) = true →
          0 ≤ W.open_uinput ∧ W.ioctl_UI_DEV_CREATE = 0) ∧
        (sdlStage X W m).m.trace = m.trace ++ [Call.SDL_Init W.SDL_Init] ++
          (if (m.g.config_mode || m.g.xbox360_mode) = true
            then deviceCalls W m.g.xbox360_mode else []) ++ tR ∧
        ((sdlStage X W m).outcome = Outcome.returned 0 ∨
          (sdlStage X W m).outcome = Outcome.running)) := by
  unfold sdlStage
  by_cases hs : W.SDL_Init = 0
  · obtain ⟨d1, d2, d3, d4⟩ := deviceStage_spec X W (m.emit (Call.SDL_Init W.SDL_Init))
    have hg : (m.emit (Call.SDL_Init W.SDL_Init)).g = m.g := rfl
    have htr : (m.emit (Call.SDL_Init W.SDL_Init)).trace = m.trace ++ [Call.SDL_Init W.SDL_Init] :=
      rfl
    rw [hg] at d1 d2 d3 d4
    rw [htr] at d2 d3 d4
    have hne : ¬ (W.SDL_Init ≠ 0) := by simp [hs]
    rw [if_neg hne]
    by_cases hm : (m.g.config_mode || m.g.xbox360_mode) = true
    · by_cases ho : W.open_uinput < 0
      · obtain ⟨r1, r2⟩ := d2 hm ho
        right; left
        rcases hd : deviceStage X W (m.emit (Call.SDL_Init W.SDL_Init)) with ⟨m3, r⟩
        rw [hd] at r1 r2
        simp only at r1 r2
        subst r1
        exact ⟨hs, hm, ho, r2, rfl⟩
      · have ho2 : 0 ≤ W.open_uinput := not_lt.mp ho
        by_cases hc : W.ioctl_UI_DEV_CREATE = 0
        · obtain ⟨r1, r2, r3, r4⟩ := d4 hm ho2 hc
          right; right; right
          rcases hd : deviceStage X W (m.emit (Call.SDL_Init W.SDL_Init)) with ⟨m3, r⟩
          rw [hd] at r1 r2 r3 r4
          simp only at r1 r2 r3 r4
          subst r1
          obtain ⟨tR, l1, l2, l3⟩ := loopStage_spec X W m3
          refine ⟨tR, hs, l1, fun _ => ⟨ho2, hc⟩, ?_, l3⟩
          simp only [l2, r2, hm, if_true]
        · obtain ⟨r1, r2⟩ := d3 hm ho2 hc
          right; right; left
          rcases hd : deviceStage X W (m.emit (Call.SDL_Init W.SDL_Init)) with ⟨m3, r⟩
          rw [hd] at r1 r2
          simp only at r1 r2
          subst r1
          exact ⟨hs, hm, ho2, hc, r2, rfl⟩
    · have hm2 : (m.g.config_mode || m.g.xbox360_mode) = false := by
        simpa using hm
      have r1 := d1 hm2
      right; right; right
      rw [r1]
      obtain ⟨tR, l1, l2, l3⟩ := loopStage_spec X W (m.emit (Call.SDL_Init W.SDL_Init))
      refine ⟨tR, hs, l1, fun h => absurd h hm, ?_, l3⟩
      simp only [l2, htr, hm, if_false, List.append_nil]
      simp
  · left
    refine ⟨hs, ?_⟩
    simp [hs, Machine.emit]

theorem main_eq (X : Extern σ ε π) (W : World ε) (s0 : σ) (argv : List CStr) :
    main X W s0 argv =
      match configStage X W
          (positionalStage (parsed X W s0 argv).1 (positionals W.permute argv)) with
      | (m1, some r) => { m := m1, outcome := Outcome.returned r }
      | (m1, none) => sdlStage X W (finaliseStage X m1) := by
  have h := (parsed_spec X W s0 argv).1
  unfold main
  rcases hpe : parsed X W s0 argv with ⟨p, e⟩
  rw [hpe] at h
  simp only at h
  subst h
  rfl

/-- The shape of every run of main: parse-time calls `tP`, then the calls `tM` of
the configuration block, `config_finalise` and `SDL_Init`, then one of four ends:
(A) main returned 1 from the configuration block, or -1 after a failed `SDL_Init`; (B) `open`
failed; (C) `UI_DEV_CREATE` failed; (D) the loop was entered, after the device
calls when a mode is set.  In (B), (C) and (D) `SDL_Init` returned 0. -/
theorem main_shape_sdl (X : Extern σ ε π) (W : World ε) (s0 : σ) (argv : List CStr) :
    ∃ tP tM : List (Call ε π),
      (∀ c ∈ tP, parseCall c = true) ∧ (∀ c ∈ tM, midCall c = true) ∧
      ((main X W s0 argv).outcome = Outcome.returned 1 ↔
        ((parsed X W s0 argv).1.g.config_mode = true ∧ W.default_config_exists = true ∧
          (X.config_load (parsed X W s0 argv).1.ext DEFAULT_CONFIG true).1 ≠ 0)) ∧
      ((main X W s0 argv).outcome ≠ Outcome.returned 1 →
        stores tM = if (parsed X W s0 argv).1.g.config_mode then
          [resolveProfile X (configState X W (parsed X W s0 argv).1.ext)
            (controlName X (getoptResults W.permute argv))] else []) ∧
      (((main X W s0 argv).m.trace = tP ++ tM ∧
          ((main X W s0 argv).outcome = Outcome.returned 1 ∨
            ((main X W s0 argv).outcome = Outcome.returned (-1) ∧ W.SDL_Init ≠ 0))) ∨
        (W.SDL_Init = 0 ∧
          ((parsed X W s0 argv).1.g.config_mode || (parsed X W s0 argv).1.g.xbox360_mode) = true ∧
          W.open_uinput < 0 ∧
          (main X W s0 argv).m.trace = tP ++ tM ++
            [Call.open_uinput W.open_uinput, Call.printf Msg.unable_to_open_uinput] ∧
          (main X W s0 argv).outcome = Outcome.returned (-1)) ∨
        (W.SDL_Init = 0 ∧
          ((parsed X W s0 argv).1.g.config_mode || (parsed X W s0 argv).1.g.xbox360_mode) = true ∧
          0 ≤ W.open_uinput ∧ W.ioctl_UI_DEV_CREATE ≠ 0 ∧
          (main X W s0 argv).m.trace = tP ++ tM ++
            deviceCalls W (parsed X W s0 argv).1.g.xbox360_mode ++
            [Call.printf Msg.unable_to_create_uinput] ∧
          (main X W s0 argv).outcome = Outcome.returned (-1)) ∨
        (∃ tR, W.SDL_Init = 0 ∧ (∀ c ∈ tR, runCall c = true) ∧
          (((parsed X W s0 argv).1.g.config_mode || (parsed X W s0 argv).1.g.xbox360_mode) = true →
            0 ≤ W.open_uinput ∧ W.ioctl_UI_DEV_CREATE = 0) ∧
          (main X W s0 argv).m.trace = tP ++ tM ++
            (if ((parsed X W s0 argv).1.g.config_mode ||
                (parsed X W s0 argv).1.g.xbox360_mode) = true
              then deviceCalls W (parsed X W s0 argv).1.g.xbox360_mode else []) ++ tR ∧
          ((main X W s0 argv).outcome = Outcome.returned 0 ∨
            (main X W s0 argv).outcome = Outcome.running))) := by
  obtain ⟨_, p2, _, _, p5, p6⟩ := parsed_spec X W s0 argv
  rw [main_eq]
  rw [← p6]
  generalize (parsed X W s0 argv).1 = p at *
  obtain ⟨q1, q2, q3, q4, q5, q6, _⟩ := positionalStage_spec p (positionals W.permute argv)
  generalize hm0 : positionalStage p (positionals W.permute argv) = m0 at *
  have hP : ∀ c ∈ m0.trace, parseCall c = true := by
    obtain ⟨a, ha, hPa⟩ := q1
    rw [ha]
    intro c hc
    simp only [List.mem_append] at hc
    rcases hc with hc | hc
    · exact p2 c hc
    · exact hPa c hc
  obtain ⟨c1, c2, _, c4, c5, t, ct, cm, cs⟩ := configStage_spec X W m0 (by rw [q4]; exact p5)
  rw [q2, q6] at c5
  rw [q2, q5, q6] at cs
  rw [q2] at c1
  rw [q3] at c2
  rcases hcs : configStage X W m0 with ⟨m1, r⟩
  rw [hcs] at c1 c2 c4 c5 ct cs
  simp only at c1 c2 c4 c5 ct cs
  cases r with
  | some r1 =>
    have hr1 : r1 = 1 := by simpa using c4
    subst hr1
    refine ⟨m0.trace, t, hP, cm, ?_, ?_, ?_⟩
    · simp only [true_iff]
      exact c5.mp rfl
    · intro h
      exact absurd rfl h
    · left
      exact ⟨ct, Or.inl rfl⟩
  | none =>
    have hno : ¬ (p.g.config_mode = true ∧ W.default_config_exists = true ∧
        (X.config_load p.ext DEFAULT_CONFIG true).1 ≠ 0) := by
      intro h
      have := c5.mpr h
      simp at this
    have cs2 := cs rfl
    obtain ⟨fg, tf, ft, fm, fs⟩ := finaliseStage_spec X m1
    have hcm : (finaliseStage X m1).g.config_mode = p.g.config_mode := by rw [fg, c1]
    have hxm : (finaliseStage X m1).g.xbox360_mode = p.g.xbox360_mode := by rw [fg, c2]
    have hsd := sdlStage_spec X W (finaliseStage X m1)
    rw [hcm, hxm, ft, ct] at hsd
    simp only
    rcases hsd with ⟨k0, h1, h2⟩ | ⟨k0, h1, h2, h3, h4⟩ | ⟨k0, h1, h2, h3, h4, h5⟩ |
      ⟨tR, k0, h1, h2, h3, h4⟩
    · refine ⟨m0.trace, t ++ tf ++ [Call.SDL_Init W.SDL_Init, Call.printf Msg.sdl_init_failed],
        hP, ?_, ?_, ?_, ?_⟩
      · intro c hc
        simp only [List.mem_append, List.mem_cons, List.mem_singleton, List.not_mem_nil,
          or_false] at hc
        rcases hc with (hc | hc) | rfl | rfl
        · exact cm c hc
        · exact fm c hc
        · rfl
        · rfl
      · rw [h2]
        simp only [Outcome.returned.injEq]
        constructor
        · intro h; exact absurd h (by decide)
        · intro h; exact absurd h hno
      · intro _
        rw [stores_append, stores_append, cs2, fs]
        simp [stores]
      · left
        refine ⟨?_, Or.inr ⟨h2, k0⟩⟩
        rw [h1]
        simp
    · refine ⟨m0.trace, t ++ tf ++ [Call.SDL_Init W.SDL_Init], hP, ?_, ?_, ?_, ?_⟩
      · intro c hc
        simp only [List.mem_append, List.mem_singleton] at hc
        rcases hc with (hc | hc) | rfl
        · exact cm c hc
        · exact fm c hc
        · rfl
      · rw [h4]
        simp only [Outcome.returned.injEq]
        constructor
        · intro h; exact absurd h (by decide)
        · intro h; exact absurd h hno
      · intro _
        rw [stores_append, stores_append, cs2, fs]
        simp [stores]
      · right; left
        refine ⟨k0, h1, h2, ?_, h4⟩
        rw [h3]
        simp
    · refine ⟨m0.trace, t ++ tf ++ [Call.SDL_Init W.SDL_Init], hP, ?_, ?_, ?_, ?_⟩
      · intro c hc
        simp only [List.mem_append, List.mem_singleton] at hc
        rcases hc with (hc | hc) | rfl
        · exact cm c hc
        · exact fm c hc
        · rfl
      · rw [h5]
        simp only [Outcome.returned.injEq]
        constructor
        · intro h; exact absurd h (by decide)
        · intro h; exact absurd h hno
      · intro _
        rw [stores_append, stores_append, cs2, fs]
        simp [stores]
      · right; right; left
        refine ⟨k0, h1, h2, h3, ?_, h5⟩
        rw [h4]
        simp
    · refine ⟨m0.trace, t ++ tf ++ [Call.SDL_Init W.SDL_Init], hP, ?_, ?_, ?_, ?_⟩
      · intro c hc
        simp only [List.mem_append, List.mem_singleton] at hc
        rcases hc with (hc | hc) | rfl
        · exact cm c hc
        · exact fm c hc
        · rfl
      · constructor
        · intro h
          rcases h4 with h4 | h4 <;> rw [h4] at h <;> simp at h
        · intro h; exact absurd h hno
      · intro _
        rw [stores_append, stores_append, cs2, fs]
        simp [stores]
      · right; right; right
        refine ⟨tR, k0, h1, h2, ?_, h4⟩
        rw [h3]
        simp

/-- The shape of every run of main: parse-time calls `tP`, then the calls `tM` of
the configuration block, `config_finalise` and `SDL_Init`, then one of four ends:
(A) main returned from the configuration block or after `SDL_Init`; (B) `open`
failed; (C) `UI_DEV_CREATE` failed; (D) the loop was entered, after the device
calls when a mode is set. -/
theorem main_shape (X : Extern σ ε π) (W : World ε) (s0 : σ) (argv : List CStr) :
    ∃ tP tM : List (Call ε π),
      (∀ c ∈ tP, parseCall c = true) ∧ (∀ c ∈ tM, midCall c = true) ∧
      ((main X W s0 argv).outcome = Outcome.returned 1 ↔
        ((parsed X W s0 argv).1.g.config_mode = true ∧ W.default_config_exists = true ∧
          (X.config_load (parsed X W s0 argv).1.ext DEFAULT_CONFIG true).1 ≠ 0)) ∧
      ((main X W s0 argv).outcome ≠ Outcome.returned 1 →
        stores tM = if (parsed X W s0 argv).1.g.config_mode then
          [resolveProfile X (configState X W (parsed X W s0 argv).1.ext)
            (controlName X (getoptResults W.permute argv))] else []) ∧
      (((main X W s0 argv).m.trace = tP ++ tM ∧
          ((main X W s0 argv).outcome = Outcome.returned 1 ∨
            (main X W s0 argv).outcome = Outcome.returned (-1))) ∨
        (((parsed X W s0 argv).1.g.config_mode || (parsed X W s0 argv).1.g.xbox360_mode) = true ∧
          W.open_uinput < 0 ∧
          (main X W s0 argv).m.trace = tP ++ tM ++
            [Call.open_uinput W.open_uinput, Call.printf Msg.unable_to_open_uinput] ∧
          (main X W s0 argv).outcome = Outcome.returned (-1)) ∨
        (((parsed X W s0 argv).1.g.config_mode || (parsed X W s0 argv).1.g.xbox360_mode) = true ∧
          0 ≤ W.open_uinput ∧ W.ioctl_UI_DEV_CREATE ≠ 0 ∧
          (main X W s0 argv).m.trace = tP ++ tM ++
            deviceCalls W (parsed X W s0 argv).1.g.xbox360_mode ++
            [Call.printf Msg.unable_to_create_uinput] ∧
          (main X W s0 argv).outcome = Outcome.returned (-1)) ∨
        (∃ tR, (∀ c ∈ tR, runCall c = true) ∧
          (((parsed X W s0 argv).1.g.config_mode || (parsed X W s0 argv).1.g.xbox360_mode) = true →
            0 ≤ W.open_uinput ∧ W.ioctl_UI_DEV_CREATE = 0) ∧
          (main X W s0 argv).m.trace = tP ++ tM ++
            (if ((parsed X W s0 argv).1.g.config_mode ||
                (parsed X W s0 argv).1.g.xbox360_mode) = true
              then deviceCalls W (parsed X W s0 argv).1.g.xbox360_mode else []) ++ tR ∧
          ((main X W s0 argv).outcome = Outcome.returned 0 ∨
            (main X W s0 argv).outcome = Outcome.running))) := by
  obtain ⟨tP, tM, hP, hM, hiff, hst, hsh⟩ := main_shape_sdl X W s0 argv
  refine ⟨tP, tM, hP, hM, hiff, hst, ?_⟩
  rcases hsh with ⟨h1, h2 | ⟨h2, _⟩⟩ | ⟨_, h1, h2, h3, h4⟩ | ⟨_, h1, h2, h3, h4, h5⟩ |
    ⟨tR, _, h1, h2, h3, h4⟩
  · exact Or.inl ⟨h1, Or.inl h2⟩
  · exact Or.inl ⟨h1, Or.inr h2⟩
  · exact Or.inr (Or.inl ⟨h1, h2, h3, h4⟩)
  · exact Or.inr (Or.inr (Or.inl ⟨h1, h2, h3, h4, h5⟩))
  · exact Or.inr (Or.inr (Or.inr ⟨tR, h1, h2, h3, h4⟩))

theorem not_mem_of_class {P : Call ε π → Bool} {t : List (Call ε π)} {d : Call ε π}
    (h : ∀ c ∈ t, P c = true) (hd : P d = false) : d ∉ t := by
  intro hm
  have := h d hm
  rw [hd] at this
  exact absurd this (by decide)

theorem loop_free_parse (t : List (Call ε π)) (h : ∀ c ∈ t, parseCall c = true) :
    ∀ c ∈ t, isLoopCall c = false := by
  intro c hc
  have := h c hc
  cases c <;> first | rfl | exact absurd this (by simp [parseCall])

theorem loop_free_mid (t : List (Call ε π)) (h : ∀ c ∈ t, midCall c = true) :
    ∀ c ∈ t, isLoopCall c = false := by
  intro c hc
  have := h c hc
  cases c <;> first | rfl | exact absurd this (by simp [midCall])

theorem loop_free_device (W : World ε) (xbox : Bool) :
    ∀ c ∈ (deviceCalls W xbox : List (Call ε π)), isLoopCall c = false := by
  intro c hc
  cases xbox <;>
    simp only [deviceCalls, List.mem_cons, List.mem_singleton, List.not_mem_nil, or_false] at hc <;>
    rcases hc with rfl | rfl | rfl | rfl | rfl <;> rfl

theorem stores_deviceCalls (W : World ε) (xbox : Bool) :
    stores (deviceCalls W xbox : List (Call ε π)) = [] := by
  cases xbox <;> rfl

end StageLemmas

/-! ## The control loop -/

section LoopLemmas

variable {σ ε π : Type}

theorem eventCalls_cons (e : ε) (q : List ε) :
    (eventCalls (e :: q) : List (Call ε π)) =
      Call.SDL_PollEvent (some e) :: Call.handleInputEvent e :: eventCalls q := by
  simp [eventCalls]

theorem eventCalls_append (p q : List ε) :
    (eventCalls (p ++ q) : List (Call ε π)) = eventCalls p ++ eventCalls q := by
  simp [eventCalls]

/-- While `running` holds after every call, the inner loop polls and handles the
whole queue in order and ends on the poll that finds it empty. -/
theorem pollLoop_drains (X : Extern σ ε π) (g : Globals π) (q : List ε) :
    ∀ s : σ, (∀ k, k ≤ q.length → X.running (handleAll X g s (q.take k)) = true) →
      pollLoop X g s q = (eventCalls q ++ [Call.SDL_PollEvent none], handleAll X g s q) := by
  induction q with
  | nil =>
    intro s h
    have h0 := h 0 (Nat.le_refl 0)
    simp [handleAll] at h0
    simp [pollLoop, h0, eventCalls, handleAll]
  | cons e q ih =>
    intro s h
    have h0 := h 0 (Nat.zero_le _)
    simp [handleAll] at h0
    have hq : ∀ k, k ≤ q.length →
        X.running (handleAll X g (X.handleInputEvent g s e) (q.take k)) = true := by
      intro k hk
      have := h (k + 1) (by simpa using hk)
      simpa [handleAll] using this
    have := ih (X.handleInputEvent g s e) hq
    simp [pollLoop, h0, this, eventCalls_cons, handleAll]

end LoopLemmas

/-! ## The claims -/

section Claims

variable {σ ε π : Type}

/-- C6: within one iteration of the control loop, while `current_state.running`
stays true after every call, every pending event is polled and passed to
`handleInputEvent` exactly once, in arrival order, each call completing (its state
is the input of the next) before the next event is polled; after the poll that
finds the queue empty `state_update` is called exactly once, then `SDL_Delay(16)`,
and the loop goes on from the state `state_update` left. -/
theorem C6_loop_iteration (X : Extern σ ε π) (g : Globals π) (s : σ) (q : List ε)
    (qs : List (List ε))
    (hrun : ∀ k, k ≤ q.length → X.running (handleAll X g s (q.take k)) = true) :
    loopIteration X g s q =
        (eventCalls q ++ [Call.SDL_PollEvent none, Call.state_update, Call.SDL_Delay 16],
          X.state_update g (handleAll X g s q)) ∧
      (controlLoop X g s (q :: qs)).1 =
        eventCalls q ++ [Call.SDL_PollEvent none, Call.state_update, Call.SDL_Delay 16] ++
          (controlLoop X g (X.state_update g (handleAll X g s q)) qs).1 := by
  have h0 := hrun 0 (Nat.zero_le _)
  simp [handleAll] at h0
  have hp := pollLoop_drains X g q s hrun
  have hi : loopIteration X g s q =
      (eventCalls q ++ [Call.SDL_PollEvent none, Call.state_update, Call.SDL_Delay 16],
        X.state_update g (handleAll X g s q)) := by
    simp [loopIteration, hp]
  refine ⟨hi, ?_⟩
  simp [controlLoop, h0, hi]

/-- Witness for C6: a queue of two events that leave `running` set. -/
theorem C6_loop_iteration_witness :
    (∀ k, k ≤ [1, 2].length → demoX.running (handleAll demoX demoG demoRunning ([1, 2].take k))
        = true) ∧
      (controlLoop demoX demoG demoRunning ([1, 2] :: [[0]])).1 =
        eventCalls [1, 2] ++ [Call.SDL_PollEvent none, Call.state_update, Call.SDL_Delay 16] ++
          (controlLoop demoX demoG
            (demoX.state_update demoG (handleAll demoX demoG demoRunning [1, 2])) [[0]]).1 :=
  ⟨by decide, (C6_loop_iteration demoX demoG demoRunning [1, 2] [[0]] (by decide)).2⟩

/-- C9, as stated, fails in its device clause: -x came last and `xbox360_mode` is
set, but `open` on /dev/uinput fails and no Xbox 360 device is set up; -c came
last and `config_mode` is set, but `SDL_Init` fails and no keyboard and mouse
device is set up. -/
theorem C9_counterexample :
    (lastModeOption (getoptResults true [prog, ['-', 'x']]) = some 'x' ∧
      (parsed demoX demoWOpenFails demoInit [prog, ['-', 'x']]).1.g.xbox360_mode = true ∧
      Call.setupFakeXbox360Device ∉
        (main demoX demoWOpenFails demoInit [prog, ['-', 'x']]).m.trace ∧
      (main demoX demoWOpenFails demoInit [prog, ['-', 'x']]).outcome
        = Outcome.returned (-1)) ∧
    (lastModeOption (getoptResults true [prog, ['-', 'c'], ['f']]) = some 'c' ∧
      (parsed demoX demoWSdlFails demoInit [prog, ['-', 'c'], ['f']]).1.g.config_mode = true ∧
      Call.setupFakeKeyboardMouseDevice ∉
        (main demoX demoWSdlFails demoInit [prog, ['-', 'c'], ['f']]).m.trace ∧
      (main demoX demoWSdlFails demoInit [prog, ['-', 'c'], ['f']]).outcome
        = Outcome.returned (-1)) := by
  decide

/-- C9 (amended): the output-device kind is exclusive and decided by the last mode
option.  After option parsing `config_mode` and `xbox360_mode` are never both
true; `xbox360_mode` is true exactly when the last of the -c and -x options getopt
returned is -x, `config_mode` exactly when it is -c.  The fake Xbox 360 device is
set up iff -x came last, `SDL_Init` returned 0 and `open` on /dev/uinput returned a
valid descriptor; the fake keyboard and mouse device is set up iff -c came last,
the default configuration file did not fail to load, `SDL_Init` returned 0 and
`open` returned a valid descriptor; the two are never both set up. -/
theorem C9_device_kind (X : Extern σ ε π) (W : World ε) (s0 : σ) (argv : List CStr) :
    ¬ ((parsed X W s0 argv).1.g.config_mode = true ∧
        (parsed X W s0 argv).1.g.xbox360_mode = true) ∧
      ((parsed X W s0 argv).1.g.xbox360_mode = true ↔
        lastModeOption (getoptResults W.permute argv) = some 'x') ∧
      ((parsed X W s0 argv).1.g.config_mode = true ↔
        lastModeOption (getoptResults W.permute argv) = some 'c') ∧
      (Call.setupFakeXbox360Device ∈ (main X W s0 argv).m.trace ↔
        (lastModeOption (getoptResults W.permute argv) = some 'x' ∧
          W.SDL_Init = 0 ∧ 0 ≤ W.open_uinput)) ∧
      (Call.setupFakeKeyboardMouseDevice ∈ (main X W s0 argv).m.trace ↔
        (lastModeOption (getoptResults W.permute argv) = some 'c' ∧
          ¬ (W.default_config_exists = true ∧
            (X.config_load (parsed X W s0 argv).1.ext DEFAULT_CONFIG true).1 ≠ 0) ∧
          W.SDL_Init = 0 ∧ 0 ≤ W.open_uinput)) ∧
      ¬ (Call.setupFakeXbox360Device ∈ (main X W s0 argv).m.trace ∧
        Call.setupFakeKeyboardMouseDevice ∈ (main X W s0 argv).m.trace) := by
  obtain ⟨_, _, p3, p4, _, _⟩ := parsed_spec X W s0 argv
  have hx : (parsed X W s0 argv).1.g.xbox360_mode = true ↔
      lastModeOption (getoptResults W.permute argv) = some 'x' := by
    rw [p4]
    cases lastModeOption (getoptResults W.permute argv) <;> simp
  have hc : (parsed X W s0 argv).1.g.config_mode = true ↔
      lastModeOption (getoptResults W.permute argv) = some 'c' := by
    rw [p3]
    cases lastModeOption (getoptResults W.permute argv) <;> simp
  have hnot : ¬ ((parsed X W s0 argv).1.g.config_mode = true ∧
      (parsed X W s0 argv).1.g.xbox360_mode = true) := by
    rintro ⟨h1, h2⟩
    rw [hc] at h1
    rw [hx, h1] at h2
    exact absurd h2 (by decide)
  obtain ⟨tP, tM, hP, hM, hiff, _, hsh⟩ := main_shape_sdl X W s0 argv
  have hX : Call.setupFakeXbox360Device ∈ (main X W s0 argv).m.trace ↔
      (lastModeOption (getoptResults W.permute argv) = some 'x' ∧
        W.SDL_Init = 0 ∧ 0 ≤ W.open_uinput) := by
    rw [← hx]
    have a1 : (Call.setupFakeXbox360Device : Call ε π) ∉ tP := not_mem_of_class hP rfl
    have a2 : (Call.setupFakeXbox360Device : Call ε π) ∉ tM := not_mem_of_class hM rfl
    rcases hsh with ⟨ht, hout⟩ | ⟨k0, hm, ho, ht, _⟩ | ⟨k0, hm, ho, hcr, ht, _⟩ |
      ⟨tR, k0, hR, himp, ht, _⟩
    · rw [ht]
      constructor
      · intro h
        simp [a1, a2] at h
      · rintro ⟨hxb, hs, _⟩
        rcases hout with h1 | ⟨_, h2⟩
        · exact absurd ⟨(hiff.mp h1).1, hxb⟩ hnot
        · exact absurd hs h2
    · rw [ht]
      constructor
      · intro h
        simp [a1, a2] at h
      · rintro ⟨_, _, h0⟩
        omega
    · rw [ht]
      cases hxb : (parsed X W s0 argv).1.g.xbox360_mode <;>
        simp [a1, a2, deviceCalls, ho, k0]
    · have a3 : (Call.setupFakeXbox360Device : Call ε π) ∉ tR := not_mem_of_class hR rfl
      rw [ht]
      cases hxb : (parsed X W s0 argv).1.g.xbox360_mode <;>
        cases hcb : (parsed X W s0 argv).1.g.config_mode <;>
        simp [hxb, hcb] at himp <;>
        simp [a1, a2, a3, deviceCalls, himp, k0]
  have hK : Call.setupFakeKeyboardMouseDevice ∈ (main X W s0 argv).m.trace ↔
      (lastModeOption (getoptResults W.permute argv) = some 'c' ∧
        ¬ (W.default_config_exists = true ∧
          (X.config_load (parsed X W s0 argv).1.ext DEFAULT_CONFIG true).1 ≠ 0) ∧
        W.SDL_Init = 0 ∧ 0 ≤ W.open_uinput) := by
    rw [← hc]
    have a1 : (Call.setupFakeKeyboardMouseDevice : Call ε π) ∉ tP := not_mem_of_class hP rfl
    have a2 : (Call.setupFakeKeyboardMouseDevice : Call ε π) ∉ tM := not_mem_of_class hM rfl
    have hF : (main X W s0 argv).outcome ≠ Outcome.returned 1 →
        (parsed X W s0 argv).1.g.config_mode = true →
        ¬ (W.default_config_exists = true ∧
          (X.config_load (parsed X W s0 argv).1.ext DEFAULT_CONFIG true).1 ≠ 0) := by
      intro hne hcfg hf
      exact hne (hiff.mpr ⟨hcfg, hf.1, hf.2⟩)
    rcases hsh with ⟨ht, hout⟩ | ⟨k0, hm, ho, ht, _⟩ | ⟨k0, hm, ho, hcr, ht, hout⟩ |
      ⟨tR, k0, hR, himp, ht, hout⟩
    · rw [ht]
      constructor
      · intro h
        simp [a1, a2] at h
      · rintro ⟨_, hnf, hs, _⟩
        rcases hout with h1 | ⟨_, h2⟩
        · exact absurd ⟨(hiff.mp h1).2.1, (hiff.mp h1).2.2⟩ hnf
        · exact absurd hs h2
    · rw [ht]
      constructor
      · intro h
        simp [a1, a2] at h
      · rintro ⟨_, _, _, h0⟩
        omega
    · have hne : (main X W s0 argv).outcome ≠ Outcome.returned 1 := by
        rw [hout]; decide
      have hF2 := hF hne
      rw [ht]
      cases hxb : (parsed X W s0 argv).1.g.xbox360_mode <;>
        cases hcb : (parsed X W s0 argv).1.g.config_mode <;>
        simp [hxb, hcb] at hm hnot hF2 <;>
        (simp [a1, a2, deviceCalls, ho, k0]; try assumption)
    · have hne : (main X W s0 argv).outcome ≠ Outcome.returned 1 := by
        rcases hout with h | h <;> rw [h] <;> decide
      have hF2 := hF hne
      have a3 : (Call.setupFakeKeyboardMouseDevice : Call ε π) ∉ tR := not_mem_of_class hR rfl
      rw [ht]
      cases hxb : (parsed X W s0 argv).1.g.xbox360_mode <;>
        cases hcb : (parsed X W s0 argv).1.g.config_mode <;>
        simp [hxb, hcb] at himp hnot hF2 <;>
        (simp [a1, a2, a3, deviceCalls, himp, k0]; try assumption)
  refine ⟨hnot, hx, hc, hX, hK, ?_⟩
  rintro ⟨h1, h2⟩
  have e1 := (hX.mp h1).1
  have e2 := (hK.mp h2).1
  rw [e1] at e2
  exact absurd e2 (by decide)

/-- Witness for C9 on three command lines: `-c f -x` sets up the Xbox 360 device;
`-x -c f` sets up the keyboard and mouse device; in `-c -x` the element -x is the
argument of -c (the file loaded), so -c is the last mode option and the keyboard
and mouse device is set up. -/
theorem C9_device_kind_witness :
    (lastModeOption (getoptResults true [prog, ['-', 'c'], ['f'], ['-', 'x']]) = some 'x' ∧
      (parsed demoX (demoW []) demoInit
        [prog, ['-', 'c'], ['f'], ['-', 'x']]).1.g.xbox360_mode = true ∧
      Call.setupFakeXbox360Device ∈
        (main demoX (demoW []) demoInit [prog, ['-', 'c'], ['f'], ['-', 'x']]).m.trace) ∧
    (lastModeOption (getoptResults true [prog, ['-', 'x'], ['-', 'c'], ['f']]) = some 'c' ∧
      (parsed demoX (demoW []) demoInit
        [prog, ['-', 'x'], ['-', 'c'], ['f']]).1.g.config_mode = true ∧
      Call.setupFakeKeyboardMouseDevice ∈
        (main demoX (demoW []) demoInit [prog, ['-', 'x'], ['-', 'c'], ['f']]).m.trace) ∧
    (getoptResults true [prog, ['-', 'c'], ['-', 'x']] = [GetoptResult.witharg 'c' ['-', 'x']] ∧
      (parsed demoX (demoW []) demoInit [prog, ['-', 'c'], ['-', 'x']]).1.g.config_mode = true ∧
      Call.setupFakeKeyboardMouseDevice ∈
        (main demoX (demoW []) demoInit [prog, ['-', 'c'], ['-', 'x']]).m.trace) :=
  ⟨⟨by decide,
      (C9_device_kind demoX (demoW []) demoInit
        [prog, ['-', 'c'], ['f'], ['-', 'x']]).2.1.mpr (by decide),
      (C9_device_kind demoX (demoW []) demoInit
        [prog, ['-', 'c'], ['f'], ['-', 'x']]).2.2.2.1.mpr ⟨by decide, by decide, by decide⟩⟩,
    ⟨by decide,
      (C9_device_kind demoX (demoW []) demoInit
        [prog, ['-', 'x'], ['-', 'c'], ['f']]).2.2.1.mpr (by decide),
      (C9_device_kind demoX (demoW []) demoInit
        [prog, ['-', 'x'], ['-', 'c'], ['f']]).2.2.2.2.1.mpr
          ⟨by decide, by decide, by decide, by decide⟩⟩,
    ⟨by decide,
      (C9_device_kind demoX (demoW []) demoInit
        [prog, ['-', 'c'], ['-', 'x']]).2.2.1.mpr (by decide),
      (C9_device_kind demoX (demoW []) demoInit
        [prog, ['-', 'c'], ['-', 'x']]).2.2.2.2.1.mpr
          ⟨by decide, by decide, by decide, by decide⟩⟩⟩

/-- C7: a device-open error is fatal.  In every run of main in which `open` on
/dev/uinput returns a negative value, or `ioctl(UI_DEV_CREATE)` returns non-zero
(main only makes these calls in config mode or xbox360 mode), main prints the
diagnostic of that failure and returns -1, exit status 255, and the run contains
no call of `handleInputEvent` and no call of `state_update`. -/
theorem C7_device_open_error_fatal (X : Extern σ ε π) (W : World ε) (s0 : σ)
    (argv : List CStr) :
    ((∃ fd, fd < 0 ∧ Call.open_uinput fd ∈ (main X W s0 argv).m.trace) →
        ((parsed X W s0 argv).1.g.config_mode || (parsed X W s0 argv).1.g.xbox360_mode) = true ∧
        Call.printf Msg.unable_to_open_uinput ∈ (main X W s0 argv).m.trace ∧
        (main X W s0 argv).outcome = Outcome.returned (-1) ∧
        (main X W s0 argv).outcome.exitStatus = some 255 ∧
        ∀ c ∈ (main X W s0 argv).m.trace, isLoopCall c = false) ∧
      ((∃ ret, ret ≠ 0 ∧ Call.ioctl_UI_DEV_CREATE ret ∈ (main X W s0 argv).m.trace) →
        ((parsed X W s0 argv).1.g.config_mode || (parsed X W s0 argv).1.g.xbox360_mode) = true ∧
        Call.printf Msg.unable_to_create_uinput ∈ (main X W s0 argv).m.trace ∧
        (main X W s0 argv).outcome = Outcome.returned (-1) ∧
        (main X W s0 argv).outcome.exitStatus = some 255 ∧
        ∀ c ∈ (main X W s0 argv).m.trace, isLoopCall c = false) := by
  obtain ⟨tP, tM, hP, hM, _, _, hsh⟩ := main_shape X W s0 argv
  have lP := loop_free_parse tP hP
  have lM := loop_free_mid tM hM
  constructor
  · rintro ⟨fd, hfd, hmem⟩
    have a1 : (Call.open_uinput fd : Call ε π) ∉ tP := not_mem_of_class hP rfl
    have a2 : (Call.open_uinput fd : Call ε π) ∉ tM := not_mem_of_class hM rfl
    rcases hsh with ⟨ht, _⟩ | ⟨hm, ho, ht, hout⟩ | ⟨hm, ho, hcr, ht, _⟩ | ⟨tR, hR, himp, ht, _⟩
    · rw [ht] at hmem
      simp [a1, a2] at hmem
    · refine ⟨hm, ?_, hout, ?_, ?_⟩
      · rw [ht]; simp
      · rw [hout]; rfl
      · rw [ht]
        intro c hc
        simp only [List.mem_append, List.mem_cons, List.mem_singleton, List.not_mem_nil,
          or_false] at hc
        rcases hc with (hc | hc) | rfl | rfl
        · exact lP c hc
        · exact lM c hc
        · rfl
        · rfl
    · rw [ht] at hmem
      have : fd = W.open_uinput := by
        cases hxb : (parsed X W s0 argv).1.g.xbox360_mode <;>
          simpa [a1, a2, deviceCalls, hxb] using hmem
      omega
    · have a3 : (Call.open_uinput fd : Call ε π) ∉ tR := not_mem_of_class hR rfl
      rw [ht] at hmem
      by_cases hm : ((parsed X W s0 argv).1.g.config_mode ||
          (parsed X W s0 argv).1.g.xbox360_mode) = true
      · have h0 := (himp hm).1
        rw [if_pos hm] at hmem
        have : fd = W.open_uinput := by
          cases hxb : (parsed X W s0 argv).1.g.xbox360_mode <;>
            simpa [a1, a2, a3, deviceCalls, hxb] using hmem
        omega
      · simp [a1, a2, a3, hm] at hmem
  · rintro ⟨ret, hret, hmem⟩
    have a1 : (Call.ioctl_UI_DEV_CREATE ret : Call ε π) ∉ tP := not_mem_of_class hP rfl
    have a2 : (Call.ioctl_UI_DEV_CREATE ret : Call ε π) ∉ tM := not_mem_of_class hM rfl
    rcases hsh with ⟨ht, _⟩ | ⟨hm, ho, ht, _⟩ | ⟨hm, ho, hcr, ht, hout⟩ | ⟨tR, hR, himp, ht, _⟩
    · rw [ht] at hmem
      simp [a1, a2] at hmem
    · rw [ht] at hmem
      simp [a1, a2] at hmem
    · refine ⟨hm, ?_, hout, ?_, ?_⟩
      · rw [ht]; simp
      · rw [hout]; rfl
      · rw [ht]
        intro c hc
        simp only [List.mem_append, List.mem_singleton] at hc
        rcases hc with ((hc | hc) | hc) | rfl
        · exact lP c hc
        · exact lM c hc
        · exact loop_free_device W _ c hc
        · rfl
    · have a3 : (Call.ioctl_UI_DEV_CREATE ret : Call ε π) ∉ tR := not_mem_of_class hR rfl
      rw [ht] at hmem
      by_cases hm : ((parsed X W s0 argv).1.g.config_mode ||
          (parsed X W s0 argv).1.g.xbox360_mode) = true
      · have h0 := (himp hm).2
        rw [if_pos hm] at hmem
        have : ret = W.ioctl_UI_DEV_CREATE := by
          cases hxb : (parsed X W s0 argv).1.g.xbox360_mode <;>
            simpa [a1, a2, a3, deviceCalls, hxb] using hmem
        rw [this] at hret
        exact absurd h0 hret
      · simp [a1, a2, a3, hm] at hmem

/-- Witness for C7: xbox360 mode with `open` returning -1, and config mode with
`ioctl(UI_DEV_CREATE)` returning -1. -/
theorem C7_device_open_error_fatal_witness :
    ((∃ fd, fd < 0 ∧
        Call.open_uinput fd ∈ (main demoX demoWOpenFails demoInit [prog, ['-', 'x']]).m.trace) ∧
      Call.printf Msg.unable_to_open_uinput ∈
        (main demoX demoWOpenFails demoInit [prog, ['-', 'x']]).m.trace ∧
      (main demoX demoWOpenFails demoInit [prog, ['-', 'x']]).outcome = Outcome.returned (-1)) ∧
    ((∃ ret, ret ≠ 0 ∧
        Call.ioctl_UI_DEV_CREATE ret ∈
          (main demoX demoWCreateFails demoInit [prog, ['-', 'c'], ['f']]).m.trace) ∧
      Call.printf Msg.unable_to_create_uinput ∈
        (main demoX demoWCreateFails demoInit [prog, ['-', 'c'], ['f']]).m.trace ∧
      (main demoX demoWCreateFails demoInit [prog, ['-', 'c'], ['f']]).outcome
        = Outcome.returned (-1)) :=
  ⟨⟨⟨-1, by decide, by decide⟩,
      ((C7_device_open_error_fatal demoX demoWOpenFails demoInit [prog, ['-', 'x']]).1
        ⟨-1, by decide, by decide⟩).2.1,
      ((C7_device_open_error_fatal demoX demoWOpenFails demoInit [prog, ['-', 'x']]).1
        ⟨-1, by decide, by decide⟩).2.2.1⟩,
    ⟨⟨-1, by decide, by decide⟩,
      ((C7_device_open_error_fatal demoX demoWCreateFails demoInit [prog, ['-', 'c'], ['f']]).2
        ⟨-1, by decide, by decide⟩).2.1,
      ((C7_device_open_error_fatal demoX demoWCreateFails demoInit [prog, ['-', 'c'], ['f']]).2
        ⟨-1, by decide, by decide⟩).2.2.1⟩⟩

/-- C4, as stated, fails for a control name of `MAX_CONTROL_NAME` or more
characters.  With `MAX_CONTROL_NAME = 64` and -p followed by 64 letters a, a name
`config_find` does not know, main looks up the first 63 letters instead, which
name profile 2, and stores profile 2 into `config_stack[0]`, not `root_config`
(profile 0). -/
theorem C4_counterexample :
    demoX.config_find
        (configState demoX (demoW [])
          (parsed demoX (demoW []) demoInit
            [prog, ['-', 'c'], ['f'], ['-', 'p'], longName ++ ['a']]).1.ext)
        (longName ++ ['a']) = none ∧
      demoX.root_config
        (configState demoX (demoW [])
          (parsed demoX (demoW []) demoInit
            [prog, ['-', 'c'], ['f'], ['-', 'p'], longName ++ ['a']]).1.ext) = some 0 ∧
      (parsed demoX (demoW []) demoInit
        [prog, ['-', 'c'], ['f'], ['-', 'p'], longName ++ ['a']]).1.g.config_mode = true ∧
      stores (main demoX (demoW []) demoInit
        [prog, ['-', 'c'], ['f'], ['-', 'p'], longName ++ ['a']]).m.trace = [some 2] := by
  decide

/-- C4 (amended): initial profile resolution falls back to root.  In config mode
let `name` be the control name main keeps: the first `MAX_CONTROL_NAME - 1`
characters of the argument of the last -p, empty without -p.  The configuration
block makes main return 1 exactly when the default configuration file exists and
fails to load, whatever the name.  Otherwise main stores into `config_stack[0]`
exactly once, and the value stored is the profile `config_find` returns for `name`
when it returns one, and `root_config` when it returns NULL or `name` is empty. -/
theorem C4_initial_profile (X : Extern σ ε π) (W : World ε) (s0 : σ) (argv : List CStr)
    (hcfg : (parsed X W s0 argv).1.g.config_mode = true) :
    ((main X W s0 argv).outcome = Outcome.returned 1 ↔
        (W.default_config_exists = true ∧
          (X.config_load (parsed X W s0 argv).1.ext DEFAULT_CONFIG true).1 ≠ 0)) ∧
      ((main X W s0 argv).outcome ≠ Outcome.returned 1 →
        ∃ v, stores (main X W s0 argv).m.trace = [v] ∧
          (controlName X (getoptResults W.permute argv) = [] →
            v = X.root_config (configState X W (parsed X W s0 argv).1.ext)) ∧
          (controlName X (getoptResults W.permute argv) ≠ [] →
            ∀ q, X.config_find (configState X W (parsed X W s0 argv).1.ext)
                (controlName X (getoptResults W.permute argv)) = some q → v = some q) ∧
          (controlName X (getoptResults W.permute argv) ≠ [] →
            X.config_find (configState X W (parsed X W s0 argv).1.ext)
                (controlName X (getoptResults W.permute argv)) = none →
              v = X.root_config (configState X W (parsed X W s0 argv).1.ext))) := by
  obtain ⟨tP, tM, hP, hM, hiff, hst, hsh⟩ := main_shape X W s0 argv
  have sP := stores_of_parse tP hP
  constructor
  · rw [hiff]
    simp [hcfg]
  · intro hne
    have sM := hst hne
    rw [if_pos hcfg] at sM
    refine ⟨resolveProfile X (configState X W (parsed X W s0 argv).1.ext)
      (controlName X (getoptResults W.permute argv)), ?_, ?_, ?_, ?_⟩
    · rcases hsh with ⟨h1, _⟩ | ⟨_, _, h1, _⟩ | ⟨_, _, _, h1, _⟩ | ⟨tR, hR, _, h1, _⟩
      · rw [h1, stores_append, sP, sM]
        rfl
      · rw [h1, stores_append, stores_append, sP, sM]
        rfl
      · rw [h1, stores_append, stores_append, stores_append, sP, sM, stores_deviceCalls]
        rfl
      · rw [h1, stores_append, stores_append, stores_append, sP, sM, stores_of_run tR hR]
        split
        · rw [stores_deviceCalls]
          rfl
        · rfl
    · intro h
      simp [resolveProfile, h]
    · intro h q hq
      simp [resolveProfile, h, hq]
    · intro h hq
      simp [resolveProfile, h, hq]

/-- Witness for C4: config mode with `-p menu`, a name `config_find` knows. -/
theorem C4_initial_profile_witness :
    (parsed demoX (demoW []) demoInit
        [prog, ['-', 'c'], ['f'], ['-', 'p'], menuName]).1.g.config_mode = true ∧
      (main demoX (demoW []) demoInit
        [prog, ['-', 'c'], ['f'], ['-', 'p'], menuName]).outcome ≠ Outcome.returned 1 ∧
      ∃ v, stores (main demoX (demoW []) demoInit
          [prog, ['-', 'c'], ['f'], ['-', 'p'], menuName]).m.trace = [v] ∧
        (controlName demoX (getoptResults (demoW []).permute
            [prog, ['-', 'c'], ['f'], ['-', 'p'], menuName]) = [] →
          v = demoX.root_config (configState demoX (demoW [])
            (parsed demoX (demoW []) demoInit
              [prog, ['-', 'c'], ['f'], ['-', 'p'], menuName]).1.ext)) ∧
        (controlName demoX (getoptResults (demoW []).permute
            [prog, ['-', 'c'], ['f'], ['-', 'p'], menuName]) ≠ [] →
          ∀ q, demoX.config_find (configState demoX (demoW [])
              (parsed demoX (demoW []) demoInit
                [prog, ['-', 'c'], ['f'], ['-', 'p'], menuName]).1.ext)
              (controlName demoX (getoptResults (demoW []).permute
                [prog, ['-', 'c'], ['f'], ['-', 'p'], menuName])) = some q → v = some q) ∧
        (controlName demoX (getoptResults (demoW []).permute
            [prog, ['-', 'c'], ['f'], ['-', 'p'], menuName]) ≠ [] →
          demoX.config_find (configState demoX (demoW [])
              (parsed demoX (demoW []) demoInit
                [prog, ['-', 'c'], ['f'], ['-', 'p'], menuName]).1.ext)
              (controlName demoX (getoptResults (demoW []).permute
                [prog, ['-', 'c'], ['f'], ['-', 'p'], menuName])) = none →
            v = demoX.root_config (configState demoX (demoW [])
              (parsed demoX (demoW []) demoInit
                [prog, ['-', 'c'], ['f'], ['-', 'p'], menuName]).1.ext)) :=
  ⟨by decide, by decide,
    (C4_initial_profile demoX (demoW []) demoInit
      [prog, ['-', 'c'], ['f'], ['-', 'p'], menuName] (by decide)).2 (by decide)⟩

/-- C1 fails on the code: with `-c bad`, where `config_load` returns -1 for the file
`bad`, main goes on (it does not look at the return value in case c, unlike for the
default configuration file): it creates the keyboard and mouse device, enters the
control loop, handles event 0 and returns 0. -/
theorem C1_config_error_not_fatal :
    (main demoX (demoW [[0]]) demoInit [prog, ['-', 'c'], badIni]).m.trace =
        [Call.state_init, Call.config_init, Call.config_load badIni false (-1),
          Call.store_config_stack0 (some 0), Call.config_finalise, Call.SDL_Init 0,
          Call.open_uinput 3, Call.printf Msg.running_fake_keyboard,
          Call.setupFakeKeyboardMouseDevice, Call.write_uidev, Call.ioctl_UI_DEV_CREATE 0,
          Call.SDL_PollEvent (some 0), Call.handleInputEvent 0,
          Call.state_update, Call.SDL_Delay 16,
          Call.SDL_Quit, Call.sleep 1, Call.ioctl_UI_DEV_DESTROY, Call.close] ∧
      (main demoX (demoW [[0]]) demoInit [prog, ['-', 'c'], badIni]).outcome
        = Outcome.returned 0 ∧
      (main demoX (demoW [[0]]) demoInit [prog, ['-', 'c'], badIni]).outcome.exitStatus
        = some 0 := by
  decide

/-- C2 fails on the code for the environment variable: with HOTKEY naming no
button, main calls `find_button`, gets NULL and prints nothing at all (there is no
else branch), while the same name given by -H is reported. In both cases
`set_hotkey` is not called and start-up goes on. -/
theorem C2_env_hotkey_silent :
    demoX.find_button demoInit ['n', 'o'] = none ∧
      (main demoX demoWHotkey demoInit [prog]).m.trace =
        [Call.state_init, Call.config_init, Call.find_button ['n', 'o'],
          Call.config_finalise, Call.SDL_Init 0] ∧
      (main demoX (demoW []) demoInit [prog, ['-', 'H'], ['n', 'o']]).m.trace =
        [Call.state_init, Call.config_init, Call.find_button ['n', 'o'],
          Call.printf (Msg.unable_to_set_hotkey ['n', 'o']),
          Call.config_finalise, Call.SDL_Init 0] := by
  decide

/-- C3 fails on the code: Z is not in the option string handed to getopt, so -Z
comes back as the error return with `optopt` = Z, case Z of the switch is never
taken, and `want_kill` stays true after NO_PKILL or after -X. -/
theorem C3_pkill_option_ignored :
    getoptResults true [prog, ['-', 'Z']] = [GetoptResult.error 'Z'] ∧
      (parsed demoX demoWNoPkill demoInit [prog, ['-', 'Z']]).1.g.want_kill = true ∧
      (parsed demoX (demoW []) demoInit [prog, ['-', 'X'], ['-', 'Z']]).1.g.want_kill = true ∧
      (parsed demoX demoWNoPkill demoInit [prog, ['-', 'Z']]).1.trace =
        [Call.state_init, Call.config_init, Call.fprintf_stderr (Msg.unknown_option 'Z'),
          Call.fprintf_stderr Msg.blank_line, Call.fprintf_stderr (Msg.usage prog)] := by
  decide

/-- C10 fails on the code: `strncpy` is given the whole size 64 of
`kill_process_name`, so a first positional argument of 64 characters fills the
buffer and leaves no NUL byte in it; the 64 bytes are the whole argument, not its
first 63 characters. -/
theorem C10_process_name_unterminated :
    (main demoX (demoW []) demoInit [prog, List.replicate 64 'b']).m.g.kill_process_name.length
        = 64 ∧
      NUL ∉ (main demoX (demoW []) demoInit [prog, List.replicate 64 'b']).m.g.kill_process_name ∧
      (main demoX (demoW []) demoInit [prog, List.replicate 64 'b']).m.g.kill_process_name
        = List.replicate 64 'b' ∧
      (main demoX (demoW []) demoInit [prog, List.replicate 64 'b']).m.g.kill_process_name
        ≠ (List.replicate 64 'b').take 63 := by
  decide

end Claims

end Gptokeyb2
